import Mathlib

/-!
Verification of the senfd classification-and-extraction engine.

This file shallowly embeds the core of `src/senfd` (the figure classifier and
grid extractor of `senfd/documents/enriched.py`, together with the data model
of `senfd/tables.py`, `senfd/documents/plain.py` and the text normalizer of
`senfd/documents/base.py`) and proves properties of that embedding.

Modelling conventions:
* Python strings are `List Char` (ASCII inputs; the `\w`, `\s`, `\d` regex
  classes are modelled over ASCII).
* Python `dict` is an insertion-ordered association list with the
  last-write-wins update of `dict.update`.
* Python `re` patterns are embedded as explicit syntax trees (`Regex`) that
  mirror the pattern strings of the source character by character; matching is
  a fuel-bounded backtracking matcher with Python's leftmost/greedy/lazy
  alternative order, anchored at the start like `re.match`.
* The error classes of `senfd.errors` are embedded as an inductive carrying
  the structured fields passed at their construction sites; the human-readable
  message strings are omitted (no program logic inspects them).
-/

namespace Senfd

/-! ## Data model (`senfd/tables.py`, `senfd/documents/plain.py`)

`Cell.tables` (nested word-processor tables) is never consulted by the
classifier or the grid extractor, so cells are embedded by their text. -/

structure Cell where
  text : String
deriving DecidableEq

structure Row where
  cells : List Cell
deriving DecidableEq

structure Table where
  table_nr : Int
  rows : List Row
deriving DecidableEq

structure Grid where
  ncells : Nat
  headers : List String
  fields : List String
  values : List (List (Option String))
deriving DecidableEq

structure Figure where
  figure_nr : Int
  caption : String
  description : String
  page_nr : Option Int
  table : Option Table
deriving DecidableEq

/-! ## Text normalizer (`TRANSLATION_TABLE` of `senfd/documents/base.py`) -/

/-- The `str.maketrans` mapping: typographic punctuation and accented letters
to their ASCII replacements (the ellipsis maps to a three-character string;
the quotation-mark replacements are written as `Char.ofNat 39` and
`Char.ofNat 34`, the apostrophe and the double quote). -/
def TRANSLATION_TABLE : List (Char × List Char) :=
  [('–', ['-']), ('—', ['-']), ('‘', [Char.ofNat 39]), ('’', [Char.ofNat 39]),
   ('“', [Char.ofNat 34]), ('”', [Char.ofNat 34]), ('…', ['.', '.', '.']),
   ('é', ['e']), ('á', ['a']), ('í', ['i']), ('ó', ['o']), ('ú', ['u']),
   ('ü', ['u']), ('ñ', ['n']), ('ç', ['c'])]

/-- Translation of one character: its `TRANSLATION_TABLE` image, or itself. -/
def trChar (c : Char) : List Char :=
  match TRANSLATION_TABLE.find? (fun p => p.1 = c) with
  | some p => p.2
  | none => [c]

/-- `str.translate(TRANSLATION_TABLE)`. -/
def pyTranslate (cs : List Char) : List Char :=
  (cs.map trChar).flatten

/-- Python whitespace stripped by `str.strip()` (ASCII fragment). -/
def isPySpace (c : Char) : Bool :=
  c = ' ' || c = '\t' || c = '\n' || c = '\r' || c = Char.ofNat 11 || c = Char.ofNat 12

/-- `str.strip()`. -/
def pyStrip (cs : List Char) : List Char :=
  ((cs.dropWhile isPySpace).reverse.dropWhile isPySpace).reverse

/-! ## Python `dict` as an insertion-ordered association list -/

/-- A `match.groupdict()`: group name to captured text (`none` for a named
group that did not participate in the match). -/
abbrev GDict := List (String × Option String)

/-- `d[k] = v`: replace in place when the key is present, append otherwise
(keys are unique, as in a Python dict). -/
def dictSet : GDict → String → Option String → GDict
  | [], k, v => [(k, v)]
  | p :: d, k, v => if p.1 = k then (p.1, v) :: d else p :: dictSet d k v

/-- `d.update(e)`. -/
def dictUpdate (d e : GDict) : GDict :=
  e.foldl (fun acc kv => dictSet acc kv.1 kv.2) d

/-- `d.get(k)` (first occurrence; equals the unique occurrence when keys are
distinct, which `dictSet`/`dictUpdate` maintain). -/
def dictLookup (d : GDict) (k : String) : Option (Option String) :=
  (d.find? (fun p => p.1 = k)).map (fun p => p.2)

/-! ## Python `re` patterns

Each pattern string of the source is embedded as an explicit syntax tree.
Groups carry their Python group number and, for `(?P<name>...)`, their name.
Matching below follows `re.match`: anchored at the start of the string, free
at the end, with Python's backtracking order (alternation tries the left
branch first, greedy repetition tries longer first, lazy repetition shorter
first). -/

inductive Regex where
  | eps
  | lit (c : Char)
  | cls (p : Char → Bool)
  | seq (a b : Regex)
  | alt (a b : Regex)
  | star (r : Regex) (greedy : Bool)
  | group (idx : Nat) (name : Option String) (r : Regex)
  | nla (r : Regex)
  | eos

namespace Regex

/-- Concatenation of a list of patterns. -/
def cat : List Regex → Regex
  | [] => .eps
  | [r] => r
  | r :: rs => .seq r (cat rs)

/-- A literal string, one `lit` per character. -/
def strLit (s : String) : Regex :=
  cat (s.data.map lit)

/-- `r?` (greedy). -/
def opt (r : Regex) : Regex := .alt r .eps

/-- `r+` (greedy when `g`). -/
def plus (r : Regex) (g : Bool) : Regex := .seq r (.star r g)

/-- `r{n}`. -/
def repN (n : Nat) (r : Regex) : Regex := cat (List.replicate n r)

/-- `.` — any character except a newline. -/
def dotC : Regex := .cls (fun c => !(c = '\n'))

/-- `.*` (greedy). -/
def dotStar : Regex := .star dotC true

/-- The named groups of a pattern, in group-number order, as
(name, group number) pairs — the key order of `match.groupdict()`. -/
def names : Regex → List (String × Nat)
  | .group i (some n) r => (n, i) :: r.names
  | .group _ none r => r.names
  | .seq a b => a.names ++ b.names
  | .alt a b => a.names ++ b.names
  | .star r _ => r.names
  | .nla r => r.names
  | _ => []

end Regex

/-- ASCII `\w`. -/
def isWordChar (c : Char) : Bool := c.isAlphanum || c = '_'

/-- ASCII `\s`. -/
def isSpaceChar (c : Char) : Bool := isPySpace c

/-- `\d`. -/
def isDigitChar (c : Char) : Bool := c.isDigit

/-- Captures accumulated during a match: group number to captured text.
Python keeps, per group, the text of its last completed match. -/
abbrev Caps := List (Nat × List Char)

/-- Record the capture of group `i` (replace any previous capture). -/
def capSet : Caps → Nat → List Char → Caps
  | [], i, v => [(i, v)]
  | p :: caps, i, v => if p.1 = i then (p.1, v) :: caps else p :: capSet caps i v

/-- The number of nodes of a pattern (used to size the matcher's fuel). -/
def Regex.size : Regex → Nat
  | .seq a b => a.size + b.size + 1
  | .alt a b => a.size + b.size + 1
  | .star r _ => r.size + 1
  | .group _ _ r => r.size + 1
  | .nla r => r.size + 1
  | _ => 1

/-- The backtracking matcher, in continuation-passing style. `ci` is
`re.IGNORECASE`. The recursion is structural on `fuel`, decremented at every
node; a repetition unrolls only when its body consumed at least one
character (Python likewise stops a repetition that matched the empty
string), so fuel of `(length + 1) * (size + 1)` as supplied by `reMatch` is
never exhausted. Continuations are invoked with the fuel captured at their
creation, so fuel bounds the depth along the pattern structure, not the
number of backtracking alternatives. -/
def reMat (ci : Bool) : Nat → Regex → List Char → Caps →
    (List Char → Caps → Option (List Char × Caps)) → Option (List Char × Caps)
  | 0, _, _, _, _ => none
  | _ + 1, .eps, s, caps, k => k s caps
  | _ + 1, .eos, s, caps, k => if s.isEmpty then k s caps else none
  | _ + 1, .lit _, [], _, _ => none
  | _ + 1, .lit c, x :: xs, caps, k =>
      if (if ci then x.toLower = c.toLower else x = c) then k xs caps else none
  | _ + 1, .cls _, [], _, _ => none
  | _ + 1, .cls p, x :: xs, caps, k =>
      if p x || (ci && (p x.toLower || p x.toUpper)) then k xs caps else none
  | fuel + 1, .seq a b, s, caps, k =>
      reMat ci fuel a s caps (fun s1 c1 => reMat ci fuel b s1 c1 k)
  | fuel + 1, .alt a b, s, caps, k =>
      (reMat ci fuel a s caps k).orElse (fun _ => reMat ci fuel b s caps k)
  | fuel + 1, .star r g, s, caps, k =>
      let once := reMat ci fuel r s caps (fun s1 c1 =>
        if s1.length < s.length then reMat ci fuel (.star r g) s1 c1 k else none)
      if g then once.orElse (fun _ => k s caps) else (k s caps).orElse (fun _ => once)
  | fuel + 1, .group i _ r, s, caps, k =>
      reMat ci fuel r s caps (fun s1 c1 => k s1 (capSet c1 i (s.take (s.length - s1.length))))
  | fuel + 1, .nla r, s, caps, k =>
      match reMat ci fuel r s caps (fun s1 c1 => some (s1, c1)) with
      | some _ => none
      | none => k s caps

/-- `re.match(pattern, s)`: `none` when the pattern does not match at the
start of `s`, otherwise the accumulated group captures. -/
def reMatch (ci : Bool) (r : Regex) (s : List Char) : Option Caps :=
  (reMat ci ((s.length + 1) * (r.size + 1)) r s [] (fun s1 c1 => some (s1, c1))).map
    (fun p => p.2)

/-- `match.group(i)`. -/
def capGet (caps : Caps) (i : Nat) : Option (List Char) :=
  (caps.find? (fun p => p.1 = i)).map (fun p => p.2)

/-- `match.groupdict()`: every named group of the pattern, in order, with its
captured text (or `none`). -/
def groupdict (r : Regex) (caps : Caps) : GDict :=
  r.names.map (fun ni => (ni.1, (capGet caps ni.2).map List.asString))

/-! ## The pattern constants of `senfd/documents/enriched.py` -/

/-- Chained alternation, left first. -/
def Regex.alts : List Regex → Regex
  | [] => .eps
  | [r] => r
  | r :: rs => .alt r (Regex.alts rs)

/-- `\s` as a single-character pattern. -/
def spC : Regex := .cls isSpaceChar

/-- `\s+`. -/
def spPlus : Regex := Regex.plus spC true

/-- `\s*`. -/
def spStar : Regex := .star spC true

/-- `\d` as a single-character pattern. -/
def digC : Regex := .cls isDigitChar

/-- `[\w\s]`. -/
def isWordSpace (c : Char) : Bool := isWordChar c || isSpaceChar c

/-- The class written in the source as open-bracket, `a-zA-Z`, then the
character range from space (0x20) to slash (0x2f), then close-bracket. -/
def isNameChar (c : Char) : Bool := c.isAlpha || (' ' ≤ c && c ≤ '/')

/-- `[ \d]`. -/
def isSpaceDigit (c : Char) : Bool := c = ' ' || c.isDigit

/-- A header pattern of the shape `(...).*`: group 1 followed by `.*`. -/
def hdrPat (r : Regex) : Regex := .seq (.group 1 none r) Regex.dotStar

/-- `(?P<n>.*)` — the source's `REGEX_ALL`, with `all` replaced by `n` at the
`.replace` call sites. -/
def REGEX_ALL (n : String) : Regex := .group 1 (some n) Regex.dotStar

/-- `(?P<number>\d+)?.*` -/
def REGEX_VAL_NUMBER_OPTIONAL : Regex :=
  .seq (Regex.opt (.group 1 (some "number") (Regex.plus digC true))) Regex.dotStar

/-- `^(?P<n>[a-zA-Z0-9]{1,2}h)$` -/
def REGEX_VAL_HEXSTR (n : String) : Regex :=
  .seq (.group 1 (some n)
    (.seq (.cls Char.isAlphanum) (.seq (Regex.opt (.cls Char.isAlphanum)) (.lit 'h')))) .eos

/-- `^(?P<n>[...]*)[ \d]*$` where the first class is `isNameChar` above. -/
def REGEX_VAL_NAME (n : String) : Regex :=
  .seq (.group 1 (some n) (.star (.cls isNameChar) true))
    (.seq (.star (.cls isSpaceDigit) true) .eos)

/-- `(?P<name>[ \/\-\w]+)(\((?P<acronym>[^\)]+)\))?(:\s*(?P<description>.*))?` -/
def REGEX_VAL_FIELD_DESCRIPTION : Regex :=
  Regex.cat [
    .group 1 (some "name")
      (Regex.plus (.cls (fun c => c = ' ' || c = '/' || c = '-' || isWordChar c)) true),
    Regex.opt (.group 2 none (Regex.cat [
      .lit '(',
      .group 3 (some "acronym") (Regex.plus (.cls (fun c => !(c = ')'))) true),
      .lit ')'])),
    Regex.opt (.group 4 none (Regex.cat [
      .lit ':', spStar, .group 5 (some "description") Regex.dotStar]))]

/-- `(?P<name>[ \w]+)(:\s*(?P<description>.*))?` -/
def REGEX_VAL_VALUE_DESCRIPTION : Regex :=
  Regex.cat [
    .group 1 (some "name") (Regex.plus (.cls (fun c => c = ' ' || isWordChar c)) true),
    Regex.opt (.group 2 none (Regex.cat [
      .lit ':', spStar, .group 3 (some "description") Regex.dotStar]))]

/-- `^(?:(?P<n>O|M|P|NR)(?:[ \d]*))?$` -/
def REGEX_VAL_REQUIREMENT (n : String) : Regex :=
  .seq (Regex.opt (.seq
    (.group 1 (some n) (Regex.alts [.lit 'O', .lit 'M', .lit 'P', Regex.strLit "NR"]))
    (.star (.cls isSpaceDigit) true))) .eos

/-- `(?P<n>NOTE|Note|Yes|No|Y|N)[ \d]*?` -/
def REGEX_VAL_YESNO (n : String) : Regex :=
  .seq (.group 1 (some n) (Regex.alts [
    Regex.strLit "NOTE", Regex.strLit "Note", Regex.strLit "Yes",
    Regex.strLit "No", .lit 'Y', .lit 'N']))
    (.star (.cls isSpaceDigit) false)

/-- `(Definition|Description).*` -/
def REGEX_HDR_EXPLANATION : Regex :=
  hdrPat (.alt (Regex.strLit "Definition") (Regex.strLit "Description"))

/-- hdr `(Bits|Bytes).*`; val
`(?!Note|specficiation)(?:(?P<upper>[0-9 \w\+\*]+):)?(?P<lower>[0-9 \w\+\*]+)` -/
def REGEX_GRID_RANGE : Regex × Regex :=
  (hdrPat (.alt (Regex.strLit "Bits") (Regex.strLit "Bytes")),
   Regex.cat [
     .nla (.alt (Regex.strLit "Note") (Regex.strLit "specficiation")),
     Regex.opt (.seq
       (.group 1 (some "upper")
         (Regex.plus (.cls (fun c => c = ' ' || isWordChar c || c = '+' || c = '*')) true))
       (.lit ':')),
     .group 2 (some "lower")
       (Regex.plus (.cls (fun c => c = ' ' || isWordChar c || c = '+' || c = '*')) true)])

/-- hdr `(Term|Acronym).*`; val `(?P<term>.*)` -/
def REGEX_GRID_ACRONYM : Regex × Regex :=
  (hdrPat (.alt (Regex.strLit "Term") (Regex.strLit "Acronym")), REGEX_ALL "term")

/-- hdr `(Scope|Scope.and.Support).*`; val `(?P<scope>.*)` -/
def REGEX_GRID_SCOPE : Regex × Regex :=
  (hdrPat (.alt (Regex.strLit "Scope")
     (Regex.cat [Regex.strLit "Scope", Regex.dotC, Regex.strLit "and",
       Regex.dotC, Regex.strLit "Support"])),
   REGEX_ALL "scope")

def REGEX_GRID_FIELD_DESCRIPTION : Regex × Regex :=
  (REGEX_HDR_EXPLANATION, REGEX_VAL_FIELD_DESCRIPTION)

def REGEX_GRID_VALUE_DESCRIPTION : Regex × Regex :=
  (REGEX_HDR_EXPLANATION, REGEX_VAL_VALUE_DESCRIPTION)

def REGEX_GRID_EXPLANATION : Regex × Regex :=
  (REGEX_HDR_EXPLANATION, REGEX_ALL "description")

/-- hdr `(Feature.Name).*`; val `REGEX_VAL_NAME` with `feature_name` -/
def REGEX_GRID_FEATURE_NAME : Regex × Regex :=
  (hdrPat (Regex.cat [Regex.strLit "Feature", Regex.dotC, Regex.strLit "Name"]),
   REGEX_VAL_NAME "feature_name")

/-- hdr `(Feature.Identifier).*`; val `REGEX_VAL_HEXSTR` with
`feature_identifier` -/
def REGEX_GRID_FEATURE_IDENTIFIER : Regex × Regex :=
  (hdrPat (Regex.cat [Regex.strLit "Feature", Regex.dotC, Regex.strLit "Identifier"]),
   REGEX_VAL_HEXSTR "feature_identifier")

/-- hdr `(Persistent.Across.Power.Cycle.and.Reset)` (no trailing `.*`); val
`REGEX_VAL_YESNO` with `persist` -/
def REGEX_GRID_FEATURE_PAPCR : Regex × Regex :=
  (.group 1 none (Regex.cat [Regex.strLit "Persistent", Regex.dotC,
     Regex.strLit "Across", Regex.dotC, Regex.strLit "Power", Regex.dotC,
     Regex.strLit "Cycle", Regex.dotC, Regex.strLit "and", Regex.dotC,
     Regex.strLit "Reset"]),
   REGEX_VAL_YESNO "persist")

/-- hdr `(Uses.Memory.Buffer.for.Attributes)`; val `REGEX_VAL_YESNO` with
`membuf` -/
def REGEX_GRID_FEATURE_UMBFA : Regex × Regex :=
  (.group 1 none (Regex.cat [Regex.strLit "Uses", Regex.dotC,
     Regex.strLit "Memory", Regex.dotC, Regex.strLit "Buffer", Regex.dotC,
     Regex.strLit "for", Regex.dotC, Regex.strLit "Attributes"]),
   REGEX_VAL_YESNO "membuf")

/-- hdr `^(((:?Command|Feature).+Support.+Requirements)|(:?O\/M)).*$`; val
`REGEX_VAL_REQUIREMENT` with `requirement` -/
def REGEX_GRID_REQUIREMENTS : Regex × Regex :=
  (Regex.cat [
     .group 1 none (.alt
       (.group 2 none (Regex.cat [
          .group 3 none (.alt (.seq (Regex.opt (.lit ':')) (Regex.strLit "Command"))
            (Regex.strLit "Feature")),
          Regex.plus Regex.dotC true, Regex.strLit "Support",
          Regex.plus Regex.dotC true, Regex.strLit "Requirements"]))
       (.group 4 none (.seq (Regex.opt (.lit ':')) (Regex.strLit "O/M")))),
     Regex.dotStar, .eos],
   REGEX_VAL_REQUIREMENT "requirement")

/-- hdr `(Bits|Function).*`; val `(?P<bitstr>\d{4}\s\d{2}b)` -/
def REGEX_GRID_BITS_FUNCTION : Regex × Regex :=
  (hdrPat (.alt (Regex.strLit "Bits") (Regex.strLit "Function")),
   .group 1 (some "bitstr") (Regex.cat [
     Regex.repN 4 digC, spC, Regex.repN 2 digC, .lit 'b']))

/-- hdr `(Combined.Opcode).*`; val `REGEX_VAL_HEXSTR` with `opcode` -/
def REGEX_GRID_COMMAND_OPCODE : Regex × Regex :=
  (hdrPat (Regex.cat [Regex.strLit "Combined", Regex.dotC, Regex.strLit "Opcode"]),
   REGEX_VAL_HEXSTR "opcode")

/-- hdr `(Command).*`; val `REGEX_VAL_NAME` with `command_name` -/
def REGEX_GRID_COMMAND_NAME : Regex × Regex :=
  (hdrPat (Regex.strLit "Command"), REGEX_VAL_NAME "command_name")

/-- hdr `(Data.Transfer).*`; val `(?P<function>\d{2}b)` -/
def REGEX_GRID_BITS_TRANSFER : Regex × Regex :=
  (hdrPat (Regex.cat [Regex.strLit "Data", Regex.dotC, Regex.strLit "Transfer"]),
   .group 1 (some "function") (Regex.cat [Regex.repN 2 digC, .lit 'b']))

/-- hdr `(Reference).*`; val `(?P<reference>.*)` -/
def REGEX_GRID_REFERENCE : Regex × Regex :=
  (hdrPat (Regex.strLit "Reference"), REGEX_ALL "reference")

/-- hdr `(Namespace.Identifier.Used|NSID).*`; val `REGEX_VAL_YESNO` with
`uses_nsid` -/
def REGEX_GRID_USES_NSID : Regex × Regex :=
  (hdrPat (.alt (Regex.cat [Regex.strLit "Namespace", Regex.dotC,
     Regex.strLit "Identifier", Regex.dotC, Regex.strLit "Used"])
     (Regex.strLit "NSID")),
   REGEX_VAL_YESNO "uses_nsid")

/-- hdr `(CNTID).*`; val `REGEX_VAL_YESNO` with `uses_cntid` -/
def REGEX_GRID_USES_CNTID : Regex × Regex :=
  (hdrPat (Regex.strLit "CNTID"), REGEX_VAL_YESNO "uses_cntid")

/-- hdr `(CSI).*`; val `REGEX_VAL_YESNO` with `uses_csi` -/
def REGEX_GRID_USES_CSI : Regex × Regex :=
  (hdrPat (Regex.strLit "CSI"), REGEX_VAL_YESNO "uses_csi")

/-- hdr `(Value).*`; val `REGEX_VAL_HEXSTR` with `value` -/
def REGEX_GRID_VALUE : Regex × Regex :=
  (hdrPat (Regex.strLit "Value"), REGEX_VAL_HEXSTR "value")

/-- hdr `(Log.Page.Identifier).*`; val `REGEX_VAL_HEXSTR` with
`log_page_identifier` -/
def REGEX_GRID_LPI : Regex × Regex :=
  (hdrPat (Regex.cat [Regex.strLit "Log", Regex.dotC, Regex.strLit "Page",
     Regex.dotC, Regex.strLit "Identifier"]),
   REGEX_VAL_HEXSTR "log_page_identifier")

/-- hdr `(Log.Page.Name).*`; val `(?P<log_page_name>.*)` -/
def REGEX_GRID_LPN : Regex × Regex :=
  (hdrPat (Regex.cat [Regex.strLit "Log", Regex.dotC, Regex.strLit "Page",
     Regex.dotC, Regex.strLit "Name"]),
   REGEX_ALL "log_page_name")

/-- hdr `(Commands.Affected).*`; val `(?P<comma>.*)` -/
def REGEX_GRID_COMMANDS_AFFECTED : Regex × Regex :=
  (hdrPat (Regex.cat [Regex.strLit "Commands", Regex.dotC, Regex.strLit "Affected"]),
   REGEX_ALL "comma")

/-! ## The variant catalog: the `EnrichedFigure` subclasses

One `Variant` per subclass of `EnrichedFigure`, carrying the class name, the
embedded `REGEX_FIGURE_DESCRIPTION`, the `REGEX_GRID` list, and the names of
the pydantic fields the subclass declares beyond those of `EnrichedFigure`
(used by `check_regex` through `model_dump`). -/

structure Variant where
  name : String
  regexFigureDescription : Regex
  regexGrid : List (Regex × Regex)
  fieldNames : List String

/-- `^.*(Data.Structure|Log.Page)$` -/
def dataStructureFigure : Variant :=
  { name := "DataStructureFigure"
    regexFigureDescription := Regex.cat [Regex.dotStar,
      .group 1 none (.alt
        (Regex.cat [Regex.strLit "Data", Regex.dotC, Regex.strLit "Structure"])
        (Regex.cat [Regex.strLit "Log", Regex.dotC, Regex.strLit "Page"])),
      .eos]
    regexGrid := [REGEX_GRID_RANGE, REGEX_GRID_FIELD_DESCRIPTION]
    fieldNames := [] }

/-- `.*Identify.*Data.Structure.*` -/
def identifyDataStructureFigure : Variant :=
  { name := "IdentifyDataStructureFigure"
    regexFigureDescription := Regex.cat [Regex.dotStar, Regex.strLit "Identify",
      Regex.dotStar, Regex.strLit "Data", Regex.dotC, Regex.strLit "Structure",
      Regex.dotStar]
    regexGrid := [REGEX_GRID_RANGE, REGEX_GRID_REQUIREMENTS, REGEX_GRID_FIELD_DESCRIPTION]
    fieldNames := [] }

/-- `.*Acronym\s+(definitions|Descriptions)` -/
def acronymsFigure : Variant :=
  { name := "AcronymsFigure"
    regexFigureDescription := Regex.cat [Regex.dotStar, Regex.strLit "Acronym",
      spPlus, .group 1 none (.alt (Regex.strLit "definitions") (Regex.strLit "Descriptions"))]
    regexGrid := [REGEX_GRID_ACRONYM, REGEX_GRID_EXPLANATION]
    fieldNames := [] }

/-- `.*-\s+(?P<command_set_name>.*)Command\s+Set\s+Support` -/
def ioControllerCommandSetSupportRequirementFigure : Variant :=
  { name := "IoControllerCommandSetSupportRequirementFigure"
    regexFigureDescription := Regex.cat [Regex.dotStar, .lit '-', spPlus,
      .group 1 (some "command_set_name") Regex.dotStar,
      Regex.strLit "Command", spPlus, Regex.strLit "Set", spPlus, Regex.strLit "Support"]
    regexGrid := [REGEX_GRID_COMMAND_NAME, REGEX_GRID_REQUIREMENTS]
    fieldNames := ["command_set_name"] }

/-- `\s*(?P<command_span>.*)\s+Command\s*Support\s*Requirements.*` -/
def commandSupportRequirementFigure : Variant :=
  { name := "CommandSupportRequirementFigure"
    regexFigureDescription := Regex.cat [spStar,
      .group 1 (some "command_span") Regex.dotStar, spPlus,
      Regex.strLit "Command", spStar, Regex.strLit "Support", spStar,
      Regex.strLit "Requirements", Regex.dotStar]
    regexGrid := [REGEX_GRID_COMMAND_NAME, REGEX_GRID_REQUIREMENTS]
    fieldNames := ["command_span"] }

/-- `.*CNS\s+Values.*` -/
def cnsValueFigure : Variant :=
  { name := "CnsValueFigure"
    regexFigureDescription := Regex.cat [Regex.dotStar, Regex.strLit "CNS",
      spPlus, Regex.strLit "Values", Regex.dotStar]
    regexGrid := [
      (hdrPat (Regex.cat [Regex.strLit "CNS", Regex.dotC, Regex.strLit "Value"]),
       REGEX_VAL_HEXSTR "cns_value"),
      (hdrPat (Regex.strLit "O/M"), REGEX_VAL_REQUIREMENT "requirement"),
      REGEX_GRID_EXPLANATION,
      REGEX_GRID_USES_NSID,
      REGEX_GRID_USES_CNTID,
      REGEX_GRID_USES_CSI,
      REGEX_GRID_REFERENCE]
    fieldNames := [] }

/-- `(?P<command_name>[\w\s]+)\s+-\s+Data\s+Pointer` -/
def commandSqeDataPointerFigure : Variant :=
  { name := "CommandSqeDataPointerFigure"
    regexFigureDescription := Regex.cat [
      .group 1 (some "command_name") (Regex.plus (.cls isWordSpace) true),
      spPlus, .lit '-', spPlus, Regex.strLit "Data", spPlus, Regex.strLit "Pointer"]
    regexGrid := [REGEX_GRID_RANGE, REGEX_GRID_FIELD_DESCRIPTION]
    fieldNames := ["command_name"] }

/-- `.*(Example|example).*` -/
def exampleFigure : Variant :=
  { name := "ExampleFigure"
    regexFigureDescription := Regex.cat [Regex.dotStar,
      .group 1 none (.alt (Regex.strLit "Example") (Regex.strLit "example")),
      Regex.dotStar]
    regexGrid := [REGEX_GRID_RANGE, REGEX_GRID_FIELD_DESCRIPTION]
    fieldNames := [] }

/-- `(?P<command_name>[\w\s]+)\s+-\s+Metadata\s+Pointer` -/
def commandSqeMetadataPointer : Variant :=
  { name := "CommandSqeMetadataPointer"
    regexFigureDescription := Regex.cat [
      .group 1 (some "command_name") (Regex.plus (.cls isWordSpace) true),
      spPlus, .lit '-', spPlus, Regex.strLit "Metadata", spPlus, Regex.strLit "Pointer"]
    regexGrid := [REGEX_GRID_RANGE, REGEX_GRID_FIELD_DESCRIPTION]
    fieldNames := ["command_name"] }

/-- `(?P<command_name>[\w\s]+)\s*-\s*Command\s*Dword\s*(?P<command_dword_lower>\d+)`
then `.*and.*?\s(?P<command_dword_upper>\d+)$` -/
def commandSqeDwordLowerUpperFigure : Variant :=
  { name := "CommandSqeDwordLowerUpperFigure"
    regexFigureDescription := Regex.cat [
      .group 1 (some "command_name") (Regex.plus (.cls isWordSpace) true),
      spStar, .lit '-', spStar, Regex.strLit "Command", spStar,
      Regex.strLit "Dword", spStar,
      .group 2 (some "command_dword_lower") (Regex.plus digC true),
      Regex.dotStar, Regex.strLit "and", .star Regex.dotC false, spC,
      .group 3 (some "command_dword_upper") (Regex.plus digC true), .eos]
    regexGrid := [REGEX_GRID_RANGE, REGEX_GRID_FIELD_DESCRIPTION]
    fieldNames := ["command_name", "command_dword_lower", "command_dword_upper"] }

/-- `^(?P<command_name>[a-zA-Z\w\s\/]+(?:\(\w\))?)\s+-\s+Command\s*Dword\s*(?P<command_dword>\d+)$` -/
def commandSqeDwordFigure : Variant :=
  { name := "CommandSqeDwordFigure"
    regexFigureDescription := Regex.cat [
      .group 1 (some "command_name") (.seq
        (Regex.plus (.cls (fun c => isWordChar c || isSpaceChar c || c = '/')) true)
        (Regex.opt (Regex.cat [.lit '(', .cls isWordChar, .lit ')']))),
      spPlus, .lit '-', spPlus, Regex.strLit "Command", spStar,
      Regex.strLit "Dword", spStar,
      .group 2 (some "command_dword") (Regex.plus digC true), .eos]
    regexGrid := [REGEX_GRID_RANGE, REGEX_GRID_FIELD_DESCRIPTION]
    fieldNames := ["command_name", "command_dword"] }

/-- `^Command\s*Dword\s*(?P<command_dword>\d+).-.CNS.Specific.Identifier$` -/
def identifyCommandSqeDwordFigure : Variant :=
  { name := "IdentifyCommandSqeDwordFigure"
    regexFigureDescription := Regex.cat [Regex.strLit "Command", spStar,
      Regex.strLit "Dword", spStar,
      .group 1 (some "command_dword") (Regex.plus digC true),
      Regex.dotC, .lit '-', Regex.dotC, Regex.strLit "CNS", Regex.dotC,
      Regex.strLit "Specific", Regex.dotC, Regex.strLit "Identifier", .eos]
    regexGrid := [REGEX_GRID_RANGE, REGEX_GRID_FIELD_DESCRIPTION]
    fieldNames := ["command_name", "command_dword"] }

/-- `(?P<command_name>[\w\s]+)\s+-\s+Completion\sQueue\sEntry\sDword\s(?P<command_dword>\d+)` -/
def commandCqeDwordFigure : Variant :=
  { name := "CommandCqeDwordFigure"
    regexFigureDescription := Regex.cat [
      .group 1 (some "command_name") (Regex.plus (.cls isWordSpace) true),
      spPlus, .lit '-', spPlus, Regex.strLit "Completion", spC,
      Regex.strLit "Queue", spC, Regex.strLit "Entry", spC,
      Regex.strLit "Dword", spC,
      .group 2 (some "command_dword") (Regex.plus digC true)]
    regexGrid := [REGEX_GRID_RANGE, REGEX_GRID_FIELD_DESCRIPTION]
    fieldNames := ["command_name", "command_dword"] }

/-- `Opcodes.for.(?P<command_set_name>Admin).Commands` -/
def commandAdminOpcodeFigure : Variant :=
  { name := "CommandAdminOpcodeFigure"
    regexFigureDescription := Regex.cat [Regex.strLit "Opcodes", Regex.dotC,
      Regex.strLit "for", Regex.dotC,
      .group 1 (some "command_set_name") (Regex.strLit "Admin"),
      Regex.dotC, Regex.strLit "Commands"]
    regexGrid := [REGEX_GRID_BITS_FUNCTION, REGEX_GRID_BITS_TRANSFER,
      REGEX_GRID_COMMAND_OPCODE, REGEX_GRID_USES_NSID,
      REGEX_GRID_COMMAND_NAME, REGEX_GRID_REFERENCE]
    fieldNames := ["command_set_name"] }

/-- `Opcodes\sfor\s(?P<command_set_name>.*?)\s(Commands|Command Set|Command Set Commands)` -/
def commandIoOpcodeFigure : Variant :=
  { name := "CommandIoOpcodeFigure"
    regexFigureDescription := Regex.cat [Regex.strLit "Opcodes", spC,
      Regex.strLit "for", spC,
      .group 1 (some "command_set_name") (.star Regex.dotC false), spC,
      .group 2 none (Regex.alts [Regex.strLit "Commands",
        Regex.strLit "Command Set", Regex.strLit "Command Set Commands"])]
    regexGrid := [REGEX_GRID_BITS_FUNCTION, REGEX_GRID_BITS_TRANSFER,
      REGEX_GRID_COMMAND_OPCODE, REGEX_GRID_COMMAND_NAME, REGEX_GRID_REFERENCE]
    fieldNames := ["command_set_name"] }

/-- `.*General.Command.Status.Values.*` -/
def generalCommandStatusValueFigure : Variant :=
  { name := "GeneralCommandStatusValueFigure"
    regexFigureDescription := Regex.cat [Regex.dotStar, Regex.strLit "General",
      Regex.dotC, Regex.strLit "Command", Regex.dotC, Regex.strLit "Status",
      Regex.dotC, Regex.strLit "Values", Regex.dotStar]
    regexGrid := [REGEX_GRID_VALUE, REGEX_GRID_VALUE_DESCRIPTION,
      REGEX_GRID_COMMANDS_AFFECTED]
    fieldNames := [] }

/-- `(?P<command_name>[a-zA-Z ...]*).-.Generic.Command.Status.Values.*` with
the `isNameChar` class -/
def genericCommandStatusValueFigure : Variant :=
  { name := "GenericCommandStatusValueFigure"
    regexFigureDescription := Regex.cat [
      .group 1 (some "command_name") (.star (.cls isNameChar) true),
      Regex.dotC, .lit '-', Regex.dotC, Regex.strLit "Generic", Regex.dotC,
      Regex.strLit "Command", Regex.dotC, Regex.strLit "Status", Regex.dotC,
      Regex.strLit "Values", Regex.dotStar]
    regexGrid := [REGEX_GRID_VALUE, REGEX_GRID_VALUE_DESCRIPTION]
    fieldNames := ["command_name"] }

/-- `(?P<command_name>[\w\s]+)\s+-\s+Command\s+Specific\s+Status\s+Values` -/
def commandSpecificStatusValueFigure : Variant :=
  { name := "CommandSpecificStatusValueFigure"
    regexFigureDescription := Regex.cat [
      .group 1 (some "command_name") (Regex.plus (.cls isWordSpace) true),
      spPlus, .lit '-', spPlus, Regex.strLit "Command", spPlus,
      Regex.strLit "Specific", spPlus, Regex.strLit "Status", spPlus,
      Regex.strLit "Values"]
    regexGrid := [REGEX_GRID_VALUE, REGEX_GRID_VALUE_DESCRIPTION,
      REGEX_GRID_COMMANDS_AFFECTED]
    fieldNames := ["command_name"] }

/-- `.*Feature\s*Identifiers.*` -/
def featureIdentifierFigure : Variant :=
  { name := "FeatureIdentifierFigure"
    regexFigureDescription := Regex.cat [Regex.dotStar, Regex.strLit "Feature",
      spStar, Regex.strLit "Identifiers", Regex.dotStar]
    regexGrid := [REGEX_GRID_FEATURE_IDENTIFIER, REGEX_GRID_FEATURE_PAPCR,
      REGEX_GRID_FEATURE_UMBFA, REGEX_GRID_EXPLANATION, REGEX_GRID_SCOPE]
    fieldNames := [] }

/-- `^.*Version Descriptor Field Values$` -/
def versionDescriptorFieldValueFigure : Variant :=
  { name := "VersionDescriptorFieldValueFigure"
    regexFigureDescription := Regex.cat [Regex.dotStar,
      Regex.strLit "Version Descriptor Field Values", .eos]
    regexGrid := [
      (hdrPat (Regex.cat [Regex.strLit "Specification", Regex.dotC,
         Regex.strLit "Version", Regex.dotC]),
       Regex.cat [.group 1 (some "version") (Regex.cat [digC, .lit '.', digC]), .eos]),
      (hdrPat (Regex.cat [Regex.strLit "MJR", Regex.dotC, Regex.strLit "Field"]),
       REGEX_VAL_HEXSTR "version_major"),
      (hdrPat (Regex.cat [Regex.strLit "MNR", Regex.dotC, Regex.strLit "Field"]),
       REGEX_VAL_HEXSTR "version_minor"),
      (hdrPat (Regex.cat [Regex.strLit "TER", Regex.dotC, Regex.strLit "Field"]),
       REGEX_VAL_HEXSTR "version_tertiary")]
    fieldNames := [] }

/-- `^.*-.Host Software Specified Fields$` -/
def hostSoftwareSpecifiedFieldFigure : Variant :=
  { name := "HostSoftwareSpecifiedFieldFigure"
    regexFigureDescription := Regex.cat [Regex.dotStar, .lit '-', Regex.dotC,
      Regex.strLit "Host Software Specified Fields", .eos]
    regexGrid := [REGEX_GRID_RANGE, REGEX_GRID_FIELD_DESCRIPTION]
    fieldNames := [] }

/-- `^I.O.Controller.-.Feature.Support$` -/
def featureSupportFigure : Variant :=
  { name := "FeatureSupportFigure"
    regexFigureDescription := Regex.cat [.lit 'I', Regex.dotC, .lit 'O',
      Regex.dotC, Regex.strLit "Controller", Regex.dotC, .lit '-', Regex.dotC,
      Regex.strLit "Feature", Regex.dotC, Regex.strLit "Support", .eos]
    regexGrid := [REGEX_GRID_FEATURE_NAME, REGEX_GRID_REQUIREMENTS]
    fieldNames := [] }

/-- `.*Log\s+Page\s+Identifiers.*` -/
def logPageIdentifierFigure : Variant :=
  { name := "LogPageIdentifierFigure"
    regexFigureDescription := Regex.cat [Regex.dotStar, Regex.strLit "Log",
      spPlus, Regex.strLit "Page", spPlus, Regex.strLit "Identifiers",
      Regex.dotStar]
    regexGrid := [REGEX_GRID_LPI, REGEX_GRID_SCOPE, REGEX_GRID_LPN,
      REGEX_GRID_REFERENCE]
    fieldNames := [] }

/-- `.*offset` -/
def offsetFigure : Variant :=
  { name := "OffsetFigure"
    regexFigureDescription := .seq Regex.dotStar (Regex.strLit "offset")
    regexGrid := [REGEX_GRID_RANGE,
      (hdrPat (Regex.strLit "Type"), REGEX_ALL "all"),
      (hdrPat (Regex.strLit "Reset"), REGEX_VAL_HEXSTR "reset"),
      REGEX_GRID_EXPLANATION]
    fieldNames := [] }

/-- `.*Property Definition.*` -/
def propertyDefinitionFigure : Variant :=
  { name := "PropertyDefinitionFigure"
    regexFigureDescription := Regex.cat [Regex.dotStar,
      Regex.strLit "Property Definition", Regex.dotStar]
    regexGrid := [
      (hdrPat (Regex.cat [Regex.strLit "Offset", Regex.dotC,
         Regex.strLit "(OFST)"]),
       REGEX_VAL_HEXSTR "hex"),
      (hdrPat (Regex.cat [Regex.strLit "Size", Regex.dotC,
         Regex.strLit "(in", Regex.dotC, Regex.strLit "bytes)"]),
       REGEX_VAL_NUMBER_OPTIONAL),
      (hdrPat (Regex.strLit "I/O Controller"),
       REGEX_VAL_REQUIREMENT "req_ioc"),
      (hdrPat (Regex.cat [Regex.strLit "Administrative", Regex.dotC,
         Regex.strLit "Controller"]),
       REGEX_VAL_REQUIREMENT "req_ac"),
      (hdrPat (Regex.cat [Regex.strLit "Discovery", Regex.dotC,
         Regex.strLit "Controller"]),
       REGEX_VAL_REQUIREMENT "req_dc"),
      (hdrPat (Regex.strLit "Name"), REGEX_VAL_FIELD_DESCRIPTION)]
    fieldNames := [] }

/-- The `EnrichedFigure` subclasses in the order they are declared in
`senfd/documents/enriched.py`. -/
def declaredFigureClasses : List Variant := [
  dataStructureFigure,
  identifyDataStructureFigure,
  acronymsFigure,
  ioControllerCommandSetSupportRequirementFigure,
  commandSupportRequirementFigure,
  cnsValueFigure,
  commandSqeDataPointerFigure,
  exampleFigure,
  commandSqeMetadataPointer,
  commandSqeDwordLowerUpperFigure,
  commandSqeDwordFigure,
  identifyCommandSqeDwordFigure,
  commandCqeDwordFigure,
  commandAdminOpcodeFigure,
  commandIoOpcodeFigure,
  generalCommandStatusValueFigure,
  genericCommandStatusValueFigure,
  commandSpecificStatusValueFigure,
  featureIdentifierFigure,
  versionDescriptorFieldValueFigure,
  hostSoftwareSpecifiedFieldFigure,
  featureSupportFigure,
  logPageIdentifierFigure,
  offsetFigure,
  propertyDefinitionFigure]

/-- Lexicographic comparison of character lists by code point — the string
order Python's `sorted` uses. -/
def charListLe : List Char → List Char → Bool
  | [], _ => true
  | _ :: _, [] => false
  | a :: as, b :: bs =>
    if a < b then true else if a = b then charListLe as bs else false

/-- Code-point order on strings. -/
def strLe (a b : String) : Bool := charListLe a.data b.data

/-- Stable insertion of a variant into a name-sorted list. -/
def insertByName (v : Variant) : List Variant → List Variant
  | [] => [v]
  | w :: ws => if strLe v.name w.name then v :: w :: ws else w :: insertByName v ws

/-- Name-sorted catalog. `inspect.getmembers` returns a module's members
sorted by attribute name, so `get_figure_enriching_classes` yields the
variant classes in alphabetical class-name order, not declaration order. -/
def get_figure_enriching_classes : List Variant :=
  declaredFigureClasses.foldr insertByName []

/-! ## Error taxonomy (`senfd/errors.py`)

Constructors carry the structured fields passed at the construction sites in
`enriched.py`; message strings are omitted. The source reuses
`FigureNoGridHeaders` for a grid with no `fields`, which is preserved here. -/

inductive Err where
  | implementationError (className : String) (shared : List String)
  | figureTableMissingError (figure_nr : Int)
  | figureTableMissingRowsError (figure_nr : Int)
  | irregularTableError (figure_nr : Int) (lengths : List Nat)
  | figureTableRowError (figure_nr : Int) (table_nr : Int) (row_idx : Nat)
  | figureTableRowCellError (figure_nr : Int) (table_nr : Int) (row_idx : Nat) (cell_idx : Nat)
  | figureNoGridHeaders (figure_nr : Int)
  | figureNoGridValues (figure_nr : Int)
deriving DecidableEq

/-- An `EnrichedFigure` instance: the plain figure data, the chosen variant,
the caption captures merged in by `cls(**data)`, and the extracted grid. -/
structure EnrichedFig where
  base : Figure
  variantName : String
  captures : GDict
  grid : Grid
deriving DecidableEq

/-- The pydantic fields of `EnrichedFigure` itself (those of the base
`Figure` of `plain.py` plus `grid`), as reported by `model_dump`. -/
def baseModelKeys : List String :=
  ["figure_nr", "caption", "description", "page_nr", "table", "grid"]

/-- `FromFigureDocument.check_regex`: the intersection of the enriched
instance's `model_dump` keys with the caption match's `groupdict` keys;
non-empty intersection yields an `ImplementationError`. -/
def check_regex (v : Variant) (captureNames : List String) : List Err :=
  let shared := (baseModelKeys ++ v.fieldNames).filter (fun k => captureNames.contains k)
  if shared.isEmpty then [] else [.implementationError v.name shared]

/-- First-occurrence deduplication. Python's `list(set(...))` has an
unspecified order; only emptiness and length of the result are consulted. -/
def uniqueLens (ls : List Nat) : List Nat :=
  ls.foldl (fun acc n => if acc.contains n then acc else acc ++ [n]) []

/-- `FromFigureDocument.check_table_data`: blocking error (table missing or
fewer than 2 rows) in the first component, non-blocking errors (irregular row
lengths) in the second. -/
def check_table_data (figure_nr : Int) (table : Option Table) : Option Err × List Err :=
  match table with
  | none => (some (.figureTableMissingError figure_nr), [])
  | some t =>
    if t.rows.length < 2 then (some (.figureTableMissingRowsError figure_nr), [])
    else
      let lengths := uniqueLens (t.rows.map (fun r => r.cells.length))
      if lengths.length ≠ 1 then (none, [.irregularTableError figure_nr lengths])
      else (none, [])

/-- `FromFigureDocument.check_grid`: post-condition diagnostics for empty
headers, fields, values. -/
def check_grid (figure_nr : Int) (grid : Grid) : List Err :=
  (if grid.headers.isEmpty then [.figureNoGridHeaders figure_nr] else []) ++
  (if grid.fields.isEmpty then [.figureNoGridHeaders figure_nr] else []) ++
  (if grid.values.isEmpty then [.figureNoGridValues figure_nr] else [])

/-- Header matching feeds `cell.text.strip().replace("\n", " ")`. -/
def hdrText (c : Cell) : List Char :=
  (pyStrip c.text.data).map (fun ch => if ch = '\n' then ' ' else ch)

/-- Value matching feeds `cell.text.strip().translate(TRANSLATION_TABLE)`. -/
def valText (c : Cell) : List Char :=
  pyTranslate (pyStrip c.text.data)

/-- For each cell/header-pattern pair (positionally zipped, the shorter list
truncating), `match.group(1) if match else None`. -/
def rowHeaderMatches (regexHdr : List Regex) (row : Row) : List (Option (List Char)) :=
  (List.zip row.cells regexHdr).map
    (fun p => (reMatch false p.2 (hdrText p.1)).bind (fun caps => capGet caps 1))

/-- Python truthiness of a `group(1)` result: a string that is present and
non-empty. -/
def headerOk (o : Option (List Char)) : Bool :=
  match o with
  | some s => !s.isEmpty
  | none => false

/-- One iteration of the value-row inner loop: on a match, merge the cell's
`groupdict` into the Python dict `combined`; otherwise record the failing
cell index. -/
def rowCellStep (acc : GDict × List Nat) (x : Nat × (Cell × Regex)) :
    GDict × List Nat :=
  match reMatch false x.2.2 (valText x.2.1) with
  | some caps => (dictUpdate acc.1 (groupdict x.2.2 caps), acc.2)
  | none => (acc.1, acc.2 ++ [x.1])

/-- The value-row inner loop: fold the zipped (cell, value-pattern) pairs
(the shorter list truncating, as `zip` does in the source). -/
def rowData (regexVal : List Regex) (cells : List Cell) : GDict × List Nat :=
  (List.zip cells regexVal).enum.foldl rowCellStep ([], [])

/-- The loop state of `enrich`'s row loop. -/
structure DState where
  headerNames : List String
  fields : List String
  values : List (List (Option String))
  errs : List Err
deriving DecidableEq

/-- One iteration of `enrich`'s `for row_idx, row in enumerate(...)` loop. -/
def dataStep (regexHdr regexVal : List Regex) (figure_nr table_nr : Int)
    (st : DState) (ir : Nat × Row) : DState :=
  if st.headerNames.isEmpty then
    let hm := rowHeaderMatches regexHdr ir.2
    if hm.all headerOk then
      { st with headerNames := hm.map (fun o => (o.getD []).asString) }
    else
      { st with errs := st.errs ++ [.figureTableRowError figure_nr table_nr ir.1] }
  else
    let cf := rowData regexVal ir.2.cells
    if !cf.2.isEmpty then
      { st with errs := st.errs ++
          cf.2.map (fun ci => .figureTableRowCellError figure_nr table_nr ir.1 ci) }
    else
      let curFields := cf.1.map (fun p => p.1)
      let fields := if st.fields.isEmpty then curFields else st.fields
      let diff := curFields.filter (fun k => !fields.contains k)
      if !diff.isEmpty then
        { st with
          fields := fields
          errs := st.errs ++ [.figureTableRowError figure_nr table_nr ir.1] }
      else
        { st with
          fields := fields
          values := st.values ++ [cf.1.map (fun p => p.2)] }

/-- `enrich`'s row loop over `table.rows[1:]` (the first table row holds the
figure caption), with 1-based row indices as in `enumerate(..., 1)`. -/
def dataPhase (v : Variant) (figureNr : Int) (t : Table) : DState :=
  ((t.rows.drop 1).enumFrom 1).foldl
    (dataStep (v.regexGrid.map (fun p => p.1)) (v.regexGrid.map (fun p => p.2))
      figureNr t.table_nr)
    ⟨[], [], [], []⟩

/-- `FromFigureDocument.enrich`. On a blocking table error the figure is not
constructed (`return None, errors`); otherwise the row loop over
`table.rows[1:]` (the first row holds the caption) builds the grid. -/
def enrich (v : Variant) (fig : Figure) (captionGd : GDict) : Option EnrichedFig × List Err :=
  let errsA := check_regex v (captionGd.map (fun p => p.1))
  match check_table_data fig.figure_nr fig.table with
  | (some e, nb) => (none, errsA ++ nb ++ [e])
  | (none, nb) =>
    match fig.table with
    | none =>
      -- Unreachable: `check_table_data` returns a blocking error whenever
      -- the table is missing.
      (none, errsA ++ nb ++ [.figureTableMissingError fig.figure_nr])
    | some t =>
      let st := dataPhase v fig.figure_nr t
      let grid : Grid := ⟨0, st.headerNames, st.fields, st.values⟩
      let ef : EnrichedFig := ⟨fig, v.name, captionGd, grid⟩
      (some ef, errsA ++ nb ++ st.errs ++ check_grid fig.figure_nr grid)

/-! ## Aggregation (`FromFigureDocument.convert`) -/

/-- `pascal_to_snake` of `senfd/utils.py`: an underscore before every
uppercase letter not at the start, then lowercase. -/
def pascalToSnake (s : String) : String :=
  ((s.data.enum.map (fun p =>
    if p.1 ≠ 0 && p.2.isUpper then ['_', p.2.toLower] else [p.2.toLower])).flatten).asString

/-- `str.replace(pat, "")` for a non-empty pattern: remove every
non-overlapping occurrence, left to right. The recursion is structural on a
fuel argument that `removeSub` sets to the string length, which is never
exhausted since every step shortens the string. -/
def removeSubF (pat : List Char) : Nat → List Char → List Char
  | 0, s => s
  | _ + 1, [] => []
  | f + 1, c :: cs =>
    if !pat.isEmpty && pat.isPrefixOf (c :: cs) then
      removeSubF pat f ((c :: cs).drop pat.length)
    else
      c :: removeSubF pat f cs

/-- See `removeSubF`. -/
def removeSub (pat s : List Char) : List Char :=
  removeSubF pat s.length s

/-- The bucket attribute looked up by `EnrichedFigure.into_document`:
`pascal_to_snake(cls.__name__).replace("_figure", "")`. -/
def snakeKey (clsName : String) : String :=
  (removeSub "_figure".data (pascalToSnake clsName).data).asString

/-- The `EnrichedFigureDocument` output, with the per-variant bucket lists
represented as a keyed append-ordered list (the source stores one typed list
attribute per variant and appends via `getattr`). -/
structure EDoc where
  buckets : List (String × EnrichedFig)
  nontabular : List Figure
  uncategorized : List Figure
deriving DecidableEq

/-- The classification scan of `convert`: the first catalog entry whose
caption pattern matches the normalized description case-insensitively. -/
def classifyFigure (catalog : List Variant) (desc : List Char) : Option (Variant × Caps) :=
  catalog.findSome?
    (fun v => (reMatch true v.regexFigureDescription desc).map (fun caps => (v, caps)))

/-- The body of `convert`'s `for figure in figure_document.figures` loop. -/
def convertStep (catalog : List Variant) (acc : EDoc × List Err) (fig : Figure) :
    EDoc × List Err :=
  match fig.table with
  | none => ({ acc.1 with nontabular := acc.1.nontabular ++ [fig] }, acc.2)
  | some _ =>
    let desc := pyTranslate fig.description.data
    match classifyFigure catalog desc with
    | none => ({ acc.1 with uncategorized := acc.1.uncategorized ++ [fig] }, acc.2)
    | some (v, caps) =>
      let gd := groupdict v.regexFigureDescription caps
      let r := enrich v fig gd
      match r.1 with
      | none => (acc.1, acc.2 ++ r.2)
      | some ef =>
        ({ acc.1 with buckets := acc.1.buckets ++ [(snakeKey v.name, ef)] },
         acc.2 ++ r.2)

/-- `FromFigureDocument.convert`, over an already-parsed figure list. -/
def convert (catalog : List Variant) (figs : List Figure) : EDoc × List Err :=
  figs.foldl (convertStep catalog) (⟨[], [], []⟩, [])

/-! ## Helper lemmas: the normalizer -/

lemma pyTranslate_append (l1 l2 : List Char) :
    pyTranslate (l1 ++ l2) = pyTranslate l1 ++ pyTranslate l2 := by
  simp [pyTranslate]

lemma pyTranslate_trChar (c : Char) : pyTranslate (trChar c) = trChar c := by
  rcases h : TRANSLATION_TABLE.find? (fun p => p.1 = c) with _ | p
  · have e : trChar c = [c] := by unfold trChar; rw [h]
    rw [e]
    show trChar c ++ [] = [c]
    rw [e, List.append_nil]
  · have hp : p ∈ TRANSLATION_TABLE := List.mem_of_find?_eq_some h
    have e : trChar c = p.2 := by unfold trChar; rw [h]
    rw [e]
    simp only [TRANSLATION_TABLE, List.mem_cons, List.not_mem_nil, or_false] at hp
    rcases hp with rfl | rfl | rfl | rfl | rfl | rfl | rfl | rfl | rfl | rfl |
      rfl | rfl | rfl | rfl | rfl
    all_goals decide

lemma pyTranslate_idem (cs : List Char) :
    pyTranslate (pyTranslate cs) = pyTranslate cs := by
  induction cs with
  | nil => rfl
  | cons c l ih =>
    have : pyTranslate (c :: l) = trChar c ++ pyTranslate l := by
      simp [pyTranslate]
    rw [this, pyTranslate_append, pyTranslate_trChar, ih]

/-! ## Helper lemmas: the Python dict embedding -/

lemma mem_keys_dictSet (d : GDict) (k k' : String) (v : Option String) :
    k' ∈ (dictSet d k v).map (fun p => p.1) ↔
      k' ∈ d.map (fun p => p.1) ∨ k' = k := by
  induction d with
  | nil => simp [dictSet]
  | cons p d ih =>
    by_cases hp : p.1 = k
    · subst hp
      simp [dictSet]
      tauto
    · simp only [dictSet, if_neg hp, List.map_cons, List.mem_cons, ih]
      tauto

lemma nodup_keys_dictSet (d : GDict) (k : String) (v : Option String)
    (h : (d.map (fun p => p.1)).Nodup) :
    ((dictSet d k v).map (fun p => p.1)).Nodup := by
  induction d with
  | nil => simp [dictSet]
  | cons p d ih =>
    have h2 : p.1 ∉ d.map (fun q => q.1) ∧ (d.map (fun q => q.1)).Nodup := by
      rw [List.map_cons, List.nodup_cons] at h
      exact h
    by_cases hp : p.1 = k
    · simpa [dictSet, hp] using ⟨by simpa [hp] using h2.1, h2.2⟩
    · simp only [dictSet, if_neg hp, List.map_cons, List.nodup_cons]
      refine ⟨?_, ih h2.2⟩
      rw [mem_keys_dictSet]
      rintro (hmem | hke)
      · exact h2.1 hmem
      · exact hp hke

lemma nodup_keys_dictUpdate (d e : GDict)
    (h : (d.map (fun p => p.1)).Nodup) :
    ((dictUpdate d e).map (fun p => p.1)).Nodup := by
  induction e generalizing d with
  | nil => exact h
  | cons kv e ih => exact ih _ (nodup_keys_dictSet _ _ _ h)

lemma length_dictSet (d : GDict) (k : String) (v : Option String) :
    (dictSet d k v).length =
      if k ∈ d.map (fun p => p.1) then d.length else d.length + 1 := by
  induction d with
  | nil => simp [dictSet]
  | cons p d ih =>
    by_cases hp : p.1 = k
    · subst hp
      simp [dictSet]
    · simp only [dictSet, if_neg hp, List.length_cons, ih, List.map_cons,
        List.mem_cons]
      have : ¬ k = p.1 := fun he => hp he.symm
      split_ifs with h1 h2 h3 <;> simp_all

lemma length_dictUpdate_le (d e : GDict) :
    (dictUpdate d e).length ≤ d.length + e.length := by
  induction e generalizing d with
  | nil => simp [dictUpdate]
  | cons kv e ih =>
    show (dictUpdate (dictSet d kv.1 kv.2) e).length ≤ d.length + (e.length + 1)
    calc (dictUpdate (dictSet d kv.1 kv.2) e).length
        ≤ (dictSet d kv.1 kv.2).length + e.length := ih _
      _ ≤ d.length + (e.length + 1) := by
          rw [length_dictSet]; split_ifs <;> omega

lemma length_dictUpdate_lt (d e : GDict)
    (h : ∃ kv ∈ e, kv.1 ∈ d.map (fun p => p.1)) :
    (dictUpdate d e).length < d.length + e.length := by
  induction e generalizing d with
  | nil => simp at h
  | cons kv e ih =>
    show (dictUpdate (dictSet d kv.1 kv.2) e).length < d.length + (e.length + 1)
    rcases h with ⟨kv', hkv', hmem⟩
    rcases List.mem_cons.mp hkv' with heq | htail
    · have hset : (dictSet d kv.1 kv.2).length = d.length := by
        rw [length_dictSet, if_pos (by rw [← heq]; exact hmem)]
      calc (dictUpdate (dictSet d kv.1 kv.2) e).length
          ≤ (dictSet d kv.1 kv.2).length + e.length := length_dictUpdate_le _ _
        _ < d.length + (e.length + 1) := by omega
    · have hx : (dictUpdate (dictSet d kv.1 kv.2) e).length <
          (dictSet d kv.1 kv.2).length + e.length :=
        ih _ ⟨kv', htail, (mem_keys_dictSet _ _ _ _).mpr (Or.inl hmem)⟩
      have hlen := length_dictSet d kv.1 kv.2
      split_ifs at hlen <;> omega

lemma dictLookup_dictSet_self (d : GDict) (k : String) (v : Option String) :
    dictLookup (dictSet d k v) k = some v := by
  induction d with
  | nil => simp [dictSet, dictLookup]
  | cons p d ih =>
    by_cases hp : p.1 = k
    · simp [dictSet, hp, dictLookup, List.find?_cons]
    · simpa [dictSet, hp, dictLookup, List.find?_cons] using ih

lemma dictLookup_dictSet_other (d : GDict) (k k' : String) (v : Option String)
    (h : k' ≠ k) : dictLookup (dictSet d k v) k' = dictLookup d k' := by
  induction d with
  | nil => simp [dictSet, dictLookup, List.find?_cons, Ne.symm h]
  | cons p d ih =>
    by_cases hp : p.1 = k
    · have hp' : ¬ p.1 = k' := by rw [hp]; exact fun e => h e.symm
      simp [dictSet, hp, dictLookup, List.find?_cons, hp', Ne.symm h]
    · by_cases hp' : p.1 = k'
      · simp [dictSet, hp, dictLookup, List.find?_cons, hp', h]
      · simpa [dictSet, hp, dictLookup, List.find?_cons, hp'] using ih

lemma dictLookup_dictUpdate_not_mem (d e : GDict) (k : String)
    (h : k ∉ e.map (fun p => p.1)) :
    dictLookup (dictUpdate d e) k = dictLookup d k := by
  induction e generalizing d with
  | nil => rfl
  | cons kv e ih =>
    have hk : k ≠ kv.1 := by
      intro he; exact h (by simp [he])
    have he : k ∉ e.map (fun p => p.1) := by
      intro hm; exact h (by simp [hm])
    show dictLookup (dictUpdate (dictSet d kv.1 kv.2) e) k = dictLookup d k
    rw [ih _ he, dictLookup_dictSet_other _ _ _ _ hk]

lemma dictLookup_dictUpdate_mem (d e : GDict) (k : String)
    (hnd : (e.map (fun p => p.1)).Nodup) (h : k ∈ e.map (fun p => p.1)) :
    dictLookup (dictUpdate d e) k = dictLookup e k := by
  induction e generalizing d with
  | nil => simp at h
  | cons kv e ih =>
    have hnd2 : kv.1 ∉ e.map (fun p => p.1) ∧ (e.map (fun p => p.1)).Nodup := by
      rw [List.map_cons, List.nodup_cons] at hnd
      exact hnd
    show dictLookup (dictUpdate (dictSet d kv.1 kv.2) e) k = _
    by_cases hk : k = kv.1
    · subst hk
      rw [dictLookup_dictUpdate_not_mem _ _ _ hnd2.1, dictLookup_dictSet_self]
      simp [dictLookup, List.find?_cons]
    · have he : k ∈ e.map (fun p => p.1) := by
        rw [List.map_cons, List.mem_cons] at h
        rcases h with h1 | h2
        · exact absurd h1 hk
        · exact h2
      rw [ih _ hnd2.2 he]
      simp [dictLookup, List.find?_cons, Ne.symm hk]

end Senfd

/-! ## Helper lemmas: generic list facts -/

namespace Senfd

lemma findSome?_eq_some_split {α β : Type} (f : α → Option β) (l : List α) (b : β)
    (h : l.findSome? f = some b) :
    ∃ l1 a l2, l = l1 ++ a :: l2 ∧ f a = some b ∧ ∀ x ∈ l1, f x = none := by
  induction l with
  | nil => simp [List.findSome?] at h
  | cons a l ih =>
    cases hfa : f a with
    | some c =>
      refine ⟨[], a, l, rfl, ?_, by intro x hx; simp at hx⟩
      rw [hfa]
      rw [List.findSome?_cons, hfa] at h
      exact h
    | none =>
      rw [List.findSome?_cons, hfa] at h
      rcases ih h with ⟨l1, x, l2, hsplit, hx, hl1⟩
      refine ⟨a :: l1, x, l2, by rw [hsplit]; rfl, hx, ?_⟩
      intro y hy
      rcases List.mem_cons.mp hy with heq | hy'
      · rw [heq]; exact hfa
      · exact hl1 y hy'

/-! ## Concrete input figures used by scenarios, witnesses and counterexamples -/

/-- A table with a one-cell caption row, a five-cell header row, a
five-cell data row and a four-cell data row: its row lengths are
irregular. -/
def tblIrregular : Table :=
  { table_nr := 3, rows := [
      ⟨[⟨"Figure 7: Opcodes for NVM Commands"⟩]⟩,
      ⟨[⟨"Bits"⟩, ⟨"Data Transfer"⟩, ⟨"Combined Opcode"⟩, ⟨"Command"⟩, ⟨"Reference"⟩]⟩,
      ⟨[⟨"0000 00b"⟩, ⟨"00b"⟩, ⟨"02h"⟩, ⟨"Flush"⟩, ⟨"5.1"⟩]⟩,
      ⟨[⟨"0000 00b"⟩, ⟨"01b"⟩, ⟨"01h"⟩, ⟨"Write"⟩]⟩ ] }

/-- A tabular figure whose description `Opcodes for NVM Commands` is
classified as `CommandIoOpcodeFigure` (a five-column variant), carrying
`tblIrregular`. -/
def figIrregular : Figure :=
  { figure_nr := 7, caption := "Figure 7: Opcodes for NVM Commands",
    description := "Opcodes for NVM Commands", page_nr := none,
    table := some tblIrregular }

/-- An `AcronymsFigure` (a two-column variant) whose only data row has a
single cell, matching the first column's value pattern only. -/
def figShortRow : Figure :=
  { figure_nr := 11, caption := "Figure 11: Acronym definitions",
    description := "Acronym definitions", page_nr := none,
    table := some { table_nr := 5, rows := [
      ⟨[⟨"Figure 11: Acronym definitions"⟩]⟩,
      ⟨[⟨"Term"⟩, ⟨"Definition"⟩]⟩,
      ⟨[⟨"NVM"⟩]⟩ ] } }

/-- A five-column opcode table whose only data row has a single cell (a
bit-string matching the first column), so no row of the table matches all
five of the variant's value patterns. -/
def tblShortRowOpc : Table :=
  { table_nr := 8, rows := [
      ⟨[⟨"Figure 13: Opcodes for NVM Commands"⟩]⟩,
      ⟨[⟨"Bits"⟩, ⟨"Data Transfer"⟩, ⟨"Combined Opcode"⟩, ⟨"Command"⟩, ⟨"Reference"⟩]⟩,
      ⟨[⟨"0000 00b"⟩]⟩ ] }

/-- A `CommandIoOpcodeFigure` carrying `tblShortRowOpc`. -/
def figShortRowOpc : Figure :=
  { figure_nr := 13, caption := "Figure 13: Opcodes for NVM Commands",
    description := "Opcodes for NVM Commands", page_nr := none,
    table := some tblShortRowOpc }

/-- A `CommandIoOpcodeFigure` table whose second data row has empty text in
its third cell, where the value pattern requires a two-character hex code;
the surrounding data rows are valid. -/
def figCellError : Figure :=
  { figure_nr := 12, caption := "Figure 12: Opcodes for NVM Commands",
    description := "Opcodes for NVM Commands", page_nr := none,
    table := some { table_nr := 6, rows := [
      ⟨[⟨"Figure 12: Opcodes for NVM Commands"⟩, ⟨"c"⟩, ⟨"c"⟩, ⟨"c"⟩, ⟨"c"⟩]⟩,
      ⟨[⟨"Bits"⟩, ⟨"Data Transfer"⟩, ⟨"Combined Opcode"⟩, ⟨"Command"⟩, ⟨"Reference"⟩]⟩,
      ⟨[⟨"0000 00b"⟩, ⟨"00b"⟩, ⟨"02h"⟩, ⟨"Flush"⟩, ⟨"5.1"⟩]⟩,
      ⟨[⟨"0000 01b"⟩, ⟨"01b"⟩, ⟨""⟩, ⟨"Write"⟩, ⟨"5.2"⟩]⟩,
      ⟨[⟨"0000 10b"⟩, ⟨"10b"⟩, ⟨"05h"⟩, ⟨"Read"⟩, ⟨"5.3"⟩]⟩ ] } }

/-- A tabular figure classified as `CnsValueFigure` whose table has a single
row, which is a blocking error (`Number of rows < 2`). -/
def figBlocked : Figure :=
  { figure_nr := 9, caption := "Figure 9: CNS Values", description := "CNS Values",
    page_nr := none,
    table := some { table_nr := 4, rows := [⟨[⟨"Figure 9: CNS Values"⟩]⟩] } }

/-! ## Claim C8 -/

/-- C8: the text normalizer (translation through `TRANSLATION_TABLE`) is
idempotent: for every string, translating twice equals translating once. -/
theorem C8_normalizer_idempotent (s : List Char) :
    pyTranslate (pyTranslate s) = pyTranslate s :=
  pyTranslate_idem s

/-! ## Claim C2 -/

/-- Modelled from the spec for the C2 comparison: the identical
classification scan, but over the variant catalog in the order the classes
are declared in the source module, as the spec asserts. -/
def classifySpecDeclarationOrder (desc : List Char) : Option (Variant × Caps) :=
  declaredFigureClasses.findSome?
    (fun v => (reMatch true v.regexFigureDescription desc).map (fun caps => (v, caps)))

/-- C2 (amended): the classification scan runs over the catalog in
alphabetical class-name order — the order produced by `inspect.getmembers` —
not declaration order, and returns the first variant in that order whose
caption pattern matches the normalized description case-insensitively. -/
theorem C2_classification_order :
    (get_figure_enriching_classes.map (fun v => v.name) =
      ["AcronymsFigure", "CnsValueFigure", "CommandAdminOpcodeFigure",
       "CommandCqeDwordFigure", "CommandIoOpcodeFigure",
       "CommandSpecificStatusValueFigure", "CommandSqeDataPointerFigure",
       "CommandSqeDwordFigure", "CommandSqeDwordLowerUpperFigure",
       "CommandSqeMetadataPointer", "CommandSupportRequirementFigure",
       "DataStructureFigure", "ExampleFigure", "FeatureIdentifierFigure",
       "FeatureSupportFigure", "GeneralCommandStatusValueFigure",
       "GenericCommandStatusValueFigure", "HostSoftwareSpecifiedFieldFigure",
       "IdentifyCommandSqeDwordFigure", "IdentifyDataStructureFigure",
       "IoControllerCommandSetSupportRequirementFigure",
       "LogPageIdentifierFigure", "OffsetFigure", "PropertyDefinitionFigure",
       "VersionDescriptorFieldValueFigure"]) ∧
    ((get_figure_enriching_classes.map (fun v => v.name)).Pairwise
      (fun a b => strLe a b = true)) ∧
    (∀ d p, classifyFigure get_figure_enriching_classes d = some p →
      (reMatch true p.1.regexFigureDescription d).isSome ∧
      ∃ l1 l2, get_figure_enriching_classes = l1 ++ p.1 :: l2 ∧
        ∀ w ∈ l1, reMatch true w.regexFigureDescription d = none) := by
  refine ⟨by decide, by decide, ?_⟩
  intro d p h
  rcases findSome?_eq_some_split _ _ _ h with ⟨l1, a, l2, hsplit, ha, hl1⟩
  rcases Option.map_eq_some'.mp ha with ⟨caps, hcaps, heq⟩
  have hav : a = p.1 := by rw [← heq]
  subst hav
  refine ⟨by rw [hcaps]; rfl, l1, l2, hsplit, ?_⟩
  intro w hw
  have := hl1 w hw
  exact Option.map_eq_none'.mp this

/-- C2 witness: at the description `CNS Values Data Structure` the scan
returns `CnsValueFigure`, the alphabetically first matching variant. -/
theorem C2_classification_order_witness :
    classifyFigure get_figure_enriching_classes ("CNS Values Data Structure".data)
      = some (cnsValueFigure, []) ∧
    ((reMatch true cnsValueFigure.regexFigureDescription
        ("CNS Values Data Structure".data)).isSome ∧
      ∃ l1 l2, get_figure_enriching_classes = l1 ++ cnsValueFigure :: l2 ∧
        ∀ w ∈ l1, reMatch true w.regexFigureDescription
          ("CNS Values Data Structure".data) = none) :=
  ⟨rfl, C2_classification_order.2.2 ("CNS Values Data Structure".data)
    (cnsValueFigure, []) rfl⟩

/-- C2 counterexample: on the description `CNS Values Data Structure` the
code's scan (alphabetical catalog order) returns `CnsValueFigure`, while the
declaration-order scan asserted by the claim returns `DataStructureFigure`,
so classification does not follow declaration order. -/
theorem C2_classification_order_counterexample :
    ((classifyFigure get_figure_enriching_classes
        ("CNS Values Data Structure".data)).map (fun p => p.1.name)
      = some "CnsValueFigure") ∧
    ((classifySpecDeclarationOrder ("CNS Values Data Structure".data)).map
        (fun p => p.1.name)
      = some "DataStructureFigure") ∧
    ¬ ("CnsValueFigure" = "DataStructureFigure") :=
  ⟨rfl, rfl, by decide⟩

end Senfd

namespace Senfd

/-! ## Helper lemmas: the value-row inner loop -/

lemma zip_left_extend {α β : Type} (l2 : List β) (l1 ex : List α)
    (h : l2.length ≤ l1.length) :
    List.zip (l1 ++ ex) l2 = List.zip l1 l2 := by
  induction l2 generalizing l1 with
  | nil => simp
  | cons b bs ih =>
    cases l1 with
    | nil => simp at h
    | cons a as =>
      simp only [List.cons_append, List.zip_cons_cons, List.cons.injEq, true_and]
      exact ih as (by simpa using h)

lemma foldl_rowCellStep_fails (P : Nat → Prop) :
    ∀ (ps : List (Nat × (Cell × Regex))) (acc : GDict × List Nat),
      (∀ j ∈ acc.2, P j) → (∀ x ∈ ps, P x.1) →
      ∀ j ∈ (ps.foldl rowCellStep acc).2, P j := by
  intro ps
  induction ps with
  | nil => intro acc hacc _ j hj; exact hacc j hj
  | cons x ps ih =>
    intro acc hacc hps j hj
    refine ih (rowCellStep acc x) ?_ (fun y hy => hps y (List.mem_cons_of_mem _ hy)) j hj
    intro j' hj'
    unfold rowCellStep at hj'
    cases hm : reMatch false x.2.2 (valText x.2.1) with
    | some caps =>
      rw [hm] at hj'
      exact hacc j' hj'
    | none =>
      rw [hm] at hj'
      rcases List.mem_append.mp hj' with h1 | h2
      · exact hacc j' h1
      · rw [List.mem_singleton.mp h2]
        exact hps x (List.mem_cons_self _ _)

lemma mem_enum_fst_lt {α : Type} (l : List α) (x : Nat × α) (h : x ∈ l.enum) :
    x.1 < l.length := by
  obtain ⟨i, a⟩ := x
  simpa using (List.mem_enumFrom h).2.1

lemma mem_keys_dictUpdate (d e : GDict) (k : String) :
    k ∈ (dictUpdate d e).map (fun p => p.1) ↔
      k ∈ d.map (fun p => p.1) ∨ k ∈ e.map (fun p => p.1) := by
  induction e generalizing d with
  | nil => simp [dictUpdate]
  | cons kv e ih =>
    show k ∈ (dictUpdate (dictSet d kv.1 kv.2) e).map (fun p => p.1) ↔ _
    rw [ih, mem_keys_dictSet]
    simp only [List.map_cons, List.mem_cons]
    tauto

lemma foldl_rowCellStep_keys_nodup :
    ∀ (ps : List (Nat × (Cell × Regex))) (acc : GDict × List Nat),
      (acc.1.map (fun p => p.1)).Nodup →
      (((ps.foldl rowCellStep acc).1).map (fun p => p.1)).Nodup := by
  intro ps
  induction ps with
  | nil => intro acc h; exact h
  | cons x ps ih =>
    intro acc h
    refine ih (rowCellStep acc x) ?_
    unfold rowCellStep
    cases hm : reMatch false x.2.2 (valText x.2.1) with
    | some caps => exact nodup_keys_dictUpdate _ _ h
    | none => exact h

lemma rowData_keys_nodup (rv : List Regex) (cells : List Cell) :
    (((rowData rv cells).1).map (fun p => p.1)).Nodup :=
  foldl_rowCellStep_keys_nodup _ _ (by simp)

/-- `dataStep` with the `let`s and pair projections expanded, for rewriting. -/
lemma dataStep_eq (rH rV : List Regex) (fnr tnr : Int) (st : DState) (i : Nat)
    (row : Row) :
    dataStep rH rV fnr tnr st (i, row) =
      if st.headerNames.isEmpty then
        (if (rowHeaderMatches rH row).all headerOk then
          { st with headerNames :=
              (rowHeaderMatches rH row).map (fun o => (o.getD []).asString) }
        else
          { st with errs := st.errs ++ [.figureTableRowError fnr tnr i] })
      else if !(rowData rV row.cells).2.isEmpty then
        { st with errs := st.errs ++ ((rowData rV row.cells).2.map
            (fun ci => .figureTableRowCellError fnr tnr i ci)) }
      else if !((((rowData rV row.cells).1.map (fun p => p.1)).filter
            (fun k => !(if st.fields.isEmpty
                then (rowData rV row.cells).1.map (fun p => p.1)
                else st.fields).contains k)).isEmpty) then
        { st with
          fields := if st.fields.isEmpty
            then (rowData rV row.cells).1.map (fun p => p.1) else st.fields
          errs := st.errs ++ [.figureTableRowError fnr tnr i] }
      else
        { st with
          fields := if st.fields.isEmpty
            then (rowData rV row.cells).1.map (fun p => p.1) else st.fields
          values := st.values ++ [(rowData rV row.cells).1.map (fun p => p.2)] } :=
  rfl

/-- When every key captured by the row is among the committed fields, the
field-divergence filter is empty. -/
lemma diff_isEmpty_of_sub (rV : List Regex) (st : DState) (cells : List Cell)
    (hsub : ∀ k ∈ (rowData rV cells).1.map (fun p => p.1),
      k ∈ (if st.fields.isEmpty then (rowData rV cells).1.map (fun p => p.1)
           else st.fields)) :
    (((rowData rV cells).1.map (fun p => p.1)).filter
      (fun k => !(if st.fields.isEmpty
          then (rowData rV cells).1.map (fun p => p.1)
          else st.fields).contains k)).isEmpty = true := by
  rw [List.isEmpty_iff, List.filter_eq_nil_iff]
  intro k hk
  have h1 : (if st.fields.isEmpty then (rowData rV cells).1.map (fun p => p.1)
      else st.fields).contains k = true := by
    show List.elem k (if st.fields.isEmpty
      then (rowData rV cells).1.map (fun p => p.1) else st.fields) = true
    exact (List.elem_iff).mpr (hsub k hk)
  have h2 : ∀ b : Bool, ¬((!b) = true) ↔ b = true := by decide
  rw [h2]
  exact h1

/-! ## Claim C9 -/

/-- C9: value rows are matched positionally through `zip`, so only the first
`min(#cells, #columns)` cells are consulted: surplus cells beyond the
variant's column count are ignored entirely, no cell diagnostic can name a
column index at or beyond that minimum, and a short row whose present cells
all match is still accepted into `values` with its (reduced) capture
record. -/
theorem C9_surplus_and_missing_cells :
    (∀ (rv : List Regex) (cells extra : List Cell), rv.length ≤ cells.length →
      rowData rv (cells ++ extra) = rowData rv cells) ∧
    (∀ (rv : List Regex) (cells : List Cell) (i : Nat),
      i ∈ (rowData rv cells).2 → i < min cells.length rv.length) ∧
    (∀ (rH rV : List Regex) (fnr tnr : Int) (st : DState) (i : Nat) (row : Row),
      st.headerNames ≠ [] → (rowData rV row.cells).2 = [] →
      (∀ k ∈ (rowData rV row.cells).1.map (fun p => p.1),
        k ∈ (if st.fields.isEmpty then (rowData rV row.cells).1.map (fun p => p.1)
             else st.fields)) →
      (dataStep rH rV fnr tnr st (i, row)).values =
        st.values ++ [(rowData rV row.cells).1.map (fun p => p.2)]) := by
  refine ⟨?surplus, ?bound, ?accept⟩
  case surplus =>
    intro rv cells extra h
    unfold rowData
    rw [zip_left_extend rv cells extra h]
  case bound =>
    intro rv cells i hi
    have := foldl_rowCellStep_fails (fun j => j < (List.zip cells rv).length)
      (List.zip cells rv).enum ([], []) (by simp)
      (fun x hx => mem_enum_fst_lt _ _ hx) i hi
    simpa [List.length_zip] using this
  case accept =>
    intro rH rV fnr tnr st i row hhdr hfail hsub
    have h0 : st.headerNames.isEmpty = false := by
      cases hh : st.headerNames with
      | nil => exact absurd hh hhdr
      | cons a l => rfl
    rw [dataStep_eq, if_neg (by simp [h0]), if_neg (by simp [hfail]),
      if_neg (by rw [diff_isEmpty_of_sub rV st row.cells hsub]; decide)]

/-- C9 witness: a two-cell row of a two-column variant is unchanged by a
surplus third cell; an empty cell failing a hex pattern is reported at index
0 < min(1, 1); and a one-cell row of a two-column variant is accepted into
`values` with its one-entry capture record. -/
theorem C9_surplus_and_missing_cells_witness :
    ((2 : Nat) ≤ 2 ∧
      rowData [REGEX_ALL "term", REGEX_ALL "description"]
          ([⟨"NVM"⟩, ⟨"x"⟩] ++ [⟨"y"⟩]) =
        rowData [REGEX_ALL "term", REGEX_ALL "description"] [⟨"NVM"⟩, ⟨"x"⟩]) ∧
    ((0 : Nat) ∈ (rowData [REGEX_VAL_HEXSTR "value"] [⟨""⟩]).2 ∧
      (0 : Nat) < min 1 1) ∧
    ((⟨["Term"], [], [], []⟩ : DState).headerNames ≠ [] ∧
      (rowData [REGEX_ALL "term", REGEX_ALL "description"] [⟨"NVM"⟩]).2 = [] ∧
      (dataStep [] [REGEX_ALL "term", REGEX_ALL "description"] 1 5
          ⟨["Term"], [], [], []⟩ (1, ⟨[⟨"NVM"⟩]⟩)).values =
        ([] : List (List (Option String))) ++
          [(rowData [REGEX_ALL "term", REGEX_ALL "description"] [⟨"NVM"⟩]).1.map
            (fun p => p.2)]) := by
  refine ⟨⟨by decide, C9_surplus_and_missing_cells.1
      [REGEX_ALL "term", REGEX_ALL "description"] [⟨"NVM"⟩, ⟨"x"⟩] [⟨"y"⟩]
      (by decide)⟩,
    ⟨by decide, C9_surplus_and_missing_cells.2.1
      [REGEX_VAL_HEXSTR "value"] [⟨""⟩] 0 (by decide)⟩,
    ⟨by decide, by decide, C9_surplus_and_missing_cells.2.2
      [] [REGEX_ALL "term", REGEX_ALL "description"] 1 5
      ⟨["Term"], [], [], []⟩ 1 ⟨[⟨"NVM"⟩]⟩ (by decide) (by decide) (by decide)⟩⟩

/-! ## Claim C10 -/

/-- C10: when the two value patterns of a row both match and bind overlapping
named groups, the captures are merged by Python-dict update: no diagnostic is
produced, for every group name bound by the second cell the merged record
holds the second cell's capture (the later cell wins silently), and when a
name is shared the merged record is strictly smaller than the total number of
named groups of the two patterns. -/
theorem C10_duplicate_capture_last_wins :
    ∀ (r1 r2 : Regex) (c1 c2 : Cell) (caps1 caps2 : Caps),
      reMatch false r1 (valText c1) = some caps1 →
      reMatch false r2 (valText c2) = some caps2 →
      ((groupdict r2 caps2).map (fun p => p.1)).Nodup →
      (rowData [r1, r2] [c1, c2]).2 = [] ∧
      (∀ k ∈ (groupdict r2 caps2).map (fun p => p.1),
        dictLookup (rowData [r1, r2] [c1, c2]).1 k =
          dictLookup (groupdict r2 caps2) k) ∧
      ((∃ kv ∈ groupdict r2 caps2, kv.1 ∈ (groupdict r1 caps1).map (fun p => p.1)) →
        (rowData [r1, r2] [c1, c2]).1.length <
          (groupdict r1 caps1).length + (groupdict r2 caps2).length) := by
  intro r1 r2 c1 c2 caps1 caps2 h1 h2 hnd
  have hr : rowData [r1, r2] [c1, c2] =
      (dictUpdate (dictUpdate [] (groupdict r1 caps1)) (groupdict r2 caps2), []) := by
    show rowCellStep (rowCellStep ([], []) (0, (c1, r1))) (1, (c2, r2)) = _
    unfold rowCellStep
    simp only [h1, h2]
  rw [hr]
  refine ⟨rfl, ?_, ?_⟩
  · intro k hk
    exact dictLookup_dictUpdate_mem _ _ _ hnd hk
  · rintro ⟨kv, hkv, hmem⟩
    have hk1 : kv.1 ∈ (dictUpdate [] (groupdict r1 caps1)).map (fun p => p.1) :=
      (mem_keys_dictUpdate _ _ _).mpr (Or.inr hmem)
    have hlt := length_dictUpdate_lt (dictUpdate [] (groupdict r1 caps1))
      (groupdict r2 caps2) ⟨kv, hkv, hk1⟩
    have hle : (dictUpdate [] (groupdict r1 caps1)).length ≤
        (groupdict r1 caps1).length := by
      have := length_dictUpdate_le [] (groupdict r1 caps1)
      simpa using this
    show (dictUpdate (dictUpdate [] (groupdict r1 caps1)) (groupdict r2 caps2)).length <
      (groupdict r1 caps1).length + (groupdict r2 caps2).length
    omega

/-- C10 witness: two whole-cell patterns both named `x`, on cells `ab` and
`cd`: no diagnostic, the merged record holds `cd` under `x`, and its size 1
is smaller than the two named groups. -/
theorem C10_duplicate_capture_last_wins_witness :
    (reMatch false (Regex.group 1 (some "x") Regex.dotStar) (valText ⟨"ab"⟩) =
      some [(1, ['a', 'b'])] ∧
     reMatch false (Regex.group 1 (some "x") Regex.dotStar) (valText ⟨"cd"⟩) =
      some [(1, ['c', 'd'])] ∧
     ((groupdict (Regex.group 1 (some "x") Regex.dotStar) [(1, ['c', 'd'])]).map
        (fun p => p.1)).Nodup) ∧
    ((rowData [Regex.group 1 (some "x") Regex.dotStar,
        Regex.group 1 (some "x") Regex.dotStar] [⟨"ab"⟩, ⟨"cd"⟩]).2 = [] ∧
     (∀ k ∈ ((groupdict (Regex.group 1 (some "x") Regex.dotStar)
          [(1, ['c', 'd'])]).map (fun p => p.1)),
        dictLookup (rowData [Regex.group 1 (some "x") Regex.dotStar,
            Regex.group 1 (some "x") Regex.dotStar] [⟨"ab"⟩, ⟨"cd"⟩]).1 k =
          dictLookup (groupdict (Regex.group 1 (some "x") Regex.dotStar)
            [(1, ['c', 'd'])]) k) ∧
     ((∃ kv ∈ groupdict (Regex.group 1 (some "x") Regex.dotStar) [(1, ['c', 'd'])],
        kv.1 ∈ ((groupdict (Regex.group 1 (some "x") Regex.dotStar)
          [(1, ['a', 'b'])]).map (fun p => p.1))) →
       (rowData [Regex.group 1 (some "x") Regex.dotStar,
           Regex.group 1 (some "x") Regex.dotStar] [⟨"ab"⟩, ⟨"cd"⟩]).1.length <
         (groupdict (Regex.group 1 (some "x") Regex.dotStar) [(1, ['a', 'b'])]).length +
           (groupdict (Regex.group 1 (some "x") Regex.dotStar) [(1, ['c', 'd'])]).length)) :=
  ⟨⟨rfl, rfl, by decide⟩,
   C10_duplicate_capture_last_wins
     (Regex.group 1 (some "x") Regex.dotStar) (Regex.group 1 (some "x") Regex.dotStar)
     ⟨"ab"⟩ ⟨"cd"⟩ [(1, ['a', 'b'])] [(1, ['c', 'd'])] rfl rfl (by decide)⟩

end Senfd

namespace Senfd

/-! ## Helper lemmas: the row loop of `enrich` -/

/-- The (headerNames, fields, values) projection of the loop state: the part
that determines the extracted grid (`errs` never feeds back into it). -/
def projHFV (st : DState) :
    List String × List String × List (List (Option String)) :=
  (st.headerNames, st.fields, st.values)

lemma dataStep_proj_congr (rH rV : List Regex) (f1 t1 f2 t2 : Int)
    (i1 i2 : Nat) (row : Row) (st1 st2 : DState)
    (h1 : st1.headerNames = st2.headerNames) (h2 : st1.fields = st2.fields)
    (h3 : st1.values = st2.values) :
    projHFV (dataStep rH rV f1 t1 st1 (i1, row)) =
      projHFV (dataStep rH rV f2 t2 st2 (i2, row)) := by
  obtain ⟨a1, b1, c1, e1⟩ := st1
  obtain ⟨a2, b2, c2, e2⟩ := st2
  simp only at h1 h2 h3
  subst h1
  subst h2
  subst h3
  rw [dataStep_eq, dataStep_eq]
  split_ifs <;> rfl

lemma foldl_dataStep_proj_congr (rH rV : List Regex) (f1 t1 f2 t2 : Int) :
    ∀ (rows : List (Nat × Row)) (st1 st2 : DState),
      st1.headerNames = st2.headerNames → st1.fields = st2.fields →
      st1.values = st2.values →
      projHFV (rows.foldl (dataStep rH rV f1 t1) st1) =
        projHFV (rows.foldl (dataStep rH rV f2 t2) st2) := by
  intro rows
  induction rows with
  | nil =>
    intro st1 st2 h1 h2 h3
    simpa [projHFV] using ⟨h1, h2, h3⟩
  | cons p rows ih =>
    intro st1 st2 h1 h2 h3
    obtain ⟨i, row⟩ := p
    have h := dataStep_proj_congr rH rV f1 t1 f2 t2 i i row st1 st2 h1 h2 h3
    exact ih _ _ (congrArg (fun q => q.1) h) (congrArg (fun q => q.2.1) h)
      (congrArg (fun q => q.2.2) h)

lemma dataStep_headerNames_of_ne (rH rV : List Regex) (fnr tnr : Int)
    (st : DState) (i : Nat) (row : Row) (h : st.headerNames ≠ []) :
    (dataStep rH rV fnr tnr st (i, row)).headerNames = st.headerNames := by
  have h0 : st.headerNames.isEmpty = false := by
    cases hh : st.headerNames with
    | nil => exact absurd hh h
    | cons a l => rfl
  rw [dataStep_eq, if_neg (by simp [h0])]
  split_ifs <;> rfl

lemma dataStep_cellfail (rH rV : List Regex) (fnr tnr : Int) (st : DState)
    (i : Nat) (row : Row) (hhdr : st.headerNames ≠ [])
    (hfail : (rowData rV row.cells).2 ≠ []) :
    dataStep rH rV fnr tnr st (i, row) =
      { st with errs := st.errs ++ ((rowData rV row.cells).2.map
          (fun ci => Err.figureTableRowCellError fnr tnr i ci)) } := by
  have h0 : st.headerNames.isEmpty = false := by
    cases hh : st.headerNames with
    | nil => exact absurd hh hhdr
    | cons a l => rfl
  have h1 : (rowData rV row.cells).2.isEmpty = false := by
    cases hh : (rowData rV row.cells).2 with
    | nil => exact absurd hh hfail
    | cons a l => rfl
  rw [dataStep_eq, if_neg (by simp [h0]), if_pos (by simp [h1])]

lemma sub_of_diff_isEmpty (cur F : List String)
    (hd : ((cur.filter (fun k => !F.contains k)).isEmpty = true)) :
    ∀ k ∈ cur, k ∈ F := by
  rw [List.isEmpty_iff, List.filter_eq_nil_iff] at hd
  intro k hk
  have hb : F.contains k = true := by
    cases hco : F.contains k with
    | true => rfl
    | false =>
      exact absurd (show (!F.contains k) = true by rw [hco]; rfl) (hd k hk)
  exact List.elem_iff.mp hb

end Senfd

namespace Senfd

lemma foldl_dataStep_filter (rH rV : List Regex) (fnr tnr : Int) :
    ∀ (rows : List (Nat × Row)) (st : DState), st.headerNames ≠ [] →
      projHFV (rows.foldl (dataStep rH rV fnr tnr) st) =
        projHFV ((rows.filter (fun p => (rowData rV p.2.cells).2.isEmpty)).foldl
          (dataStep rH rV fnr tnr) st) := by
  intro rows
  induction rows with
  | nil => intro st _; rfl
  | cons p rows ih =>
    intro st hst
    obtain ⟨i, row⟩ := p
    by_cases hok : (rowData rV row.cells).2.isEmpty = true
    · rw [List.filter_cons_of_pos (by exact hok), List.foldl_cons, List.foldl_cons]
      refine ih (dataStep rH rV fnr tnr st (i, row)) ?_
      rw [dataStep_headerNames_of_ne rH rV fnr tnr st i row hst]
      exact hst
    · rw [List.filter_cons_of_neg (by simpa using hok), List.foldl_cons]
      have hfail : (rowData rV row.cells).2 ≠ [] := by
        intro he
        exact hok (by rw [he]; rfl)
      rw [dataStep_cellfail rH rV fnr tnr st i row hst hfail]
      calc projHFV (rows.foldl (dataStep rH rV fnr tnr)
            { st with errs := st.errs ++ ((rowData rV row.cells).2.map
                (fun ci => Err.figureTableRowCellError fnr tnr i ci)) })
          = projHFV ((rows.filter (fun p => (rowData rV p.2.cells).2.isEmpty)).foldl
              (dataStep rH rV fnr tnr)
              { st with errs := st.errs ++ ((rowData rV row.cells).2.map
                  (fun ci => Err.figureTableRowCellError fnr tnr i ci)) }) :=
            ih _ hst
        _ = projHFV ((rows.filter (fun p => (rowData rV p.2.cells).2.isEmpty)).foldl
              (dataStep rH rV fnr tnr) st) :=
            foldl_dataStep_proj_congr rH rV fnr tnr fnr tnr _ _ _ rfl rfl rfl

/-! ## Claim C7 -/

/-- C7: a data row with at least one failing cell contributes nothing but
its cell-level diagnostics — the loop state's headers, fields and values are
untouched — and the extracted fields and values of a whole run are the same
as those of the run over only the rows without failing cells, so every other
valid row, before or after, still lands in `values`. The closed conjunct is
the spec's scenario: in `figCellError` the row whose third cell is empty is
absent from `values` while the prior and subsequent valid rows remain, with
a cell-level diagnostic naming row 3, cell 2. -/
theorem C7_failing_row_dropped :
    (∀ (rH rV : List Regex) (fnr tnr : Int) (st : DState) (i : Nat) (row : Row),
      st.headerNames ≠ [] → (rowData rV row.cells).2 ≠ [] →
      dataStep rH rV fnr tnr st (i, row) =
        { st with errs := st.errs ++ ((rowData rV row.cells).2.map
            (fun ci => Err.figureTableRowCellError fnr tnr i ci)) }) ∧
    (∀ (rH rV : List Regex) (fnr tnr : Int) (rows : List (Nat × Row)) (st : DState),
      st.headerNames ≠ [] →
      projHFV (rows.foldl (dataStep rH rV fnr tnr) st) =
        projHFV ((rows.filter (fun p => (rowData rV p.2.cells).2.isEmpty)).foldl
          (dataStep rH rV fnr tnr) st)) ∧
    ((enrich commandIoOpcodeFigure figCellError []).1.map (fun ef => ef.grid.values) =
      some [[some "0000 00b", some "00b", some "02h", some "Flush", some "5.1"],
            [some "0000 10b", some "10b", some "05h", some "Read", some "5.3"]] ∧
      Err.figureTableRowCellError 12 6 3 2 ∈ (enrich commandIoOpcodeFigure figCellError []).2) :=
  ⟨dataStep_cellfail, foldl_dataStep_filter, by decide, by decide⟩

/-- C7 witness: one header-accepted state, a hex-column variant, and three
rows of which the middle one has an empty failing cell: the failing row only
appends its cell diagnostic, and the run equals the run over the two valid
rows on fields and values. -/
theorem C7_failing_row_dropped_witness :
    (((⟨["Value"], [], [], []⟩ : DState).headerNames ≠ [] ∧
      (rowData [REGEX_VAL_HEXSTR "value"] (Row.mk [⟨""⟩]).cells).2 ≠ [] ∧
      dataStep [] [REGEX_VAL_HEXSTR "value"] 1 5 ⟨["Value"], [], [], []⟩ (2, ⟨[⟨""⟩]⟩) =
        { (⟨["Value"], [], [], []⟩ : DState) with
          errs := (⟨["Value"], [], [], []⟩ : DState).errs ++
            (((rowData [REGEX_VAL_HEXSTR "value"] (Row.mk [⟨""⟩]).cells).2).map
              (fun ci => Err.figureTableRowCellError 1 5 2 ci)) }) ∧
     projHFV ([(1, Row.mk [⟨"02h"⟩]), (2, Row.mk [⟨""⟩]), (3, Row.mk [⟨"05h"⟩])].foldl
         (dataStep [] [REGEX_VAL_HEXSTR "value"] 1 5) ⟨["Value"], [], [], []⟩) =
       projHFV (([(1, Row.mk [⟨"02h"⟩]), (2, Row.mk [⟨""⟩]), (3, Row.mk [⟨"05h"⟩])].filter
           (fun p => (rowData [REGEX_VAL_HEXSTR "value"] p.2.cells).2.isEmpty)).foldl
         (dataStep [] [REGEX_VAL_HEXSTR "value"] 1 5) ⟨["Value"], [], [], []⟩)) :=
  ⟨⟨by decide, by decide,
    C7_failing_row_dropped.1 [] [REGEX_VAL_HEXSTR "value"] 1 5
      ⟨["Value"], [], [], []⟩ 2 ⟨[⟨""⟩]⟩ (by decide) (by decide)⟩,
   C7_failing_row_dropped.2.1 [] [REGEX_VAL_HEXSTR "value"] 1 5
     [(1, Row.mk [⟨"02h"⟩]), (2, Row.mk [⟨""⟩]), (3, Row.mk [⟨"05h"⟩])]
     ⟨["Value"], [], [], []⟩ (by decide)⟩

end Senfd

namespace Senfd

/-! ## Helper lemmas: `enrich` unfolded, and the grid invariants -/

lemma enrich_fst_table_none (v : Variant) (fig : Figure) (gd : GDict)
    (h : fig.table = none) : (enrich v fig gd).1 = none := by
  unfold enrich
  rw [h]
  rfl

lemma check_table_data_short (n : Int) (t : Table) (hr : t.rows.length < 2) :
    check_table_data n (some t) = (some (.figureTableMissingRowsError n), []) := by
  simp only [check_table_data]
  rw [if_pos hr]

lemma enrich_fst_short (v : Variant) (fig : Figure) (gd : GDict) (t : Table)
    (h : fig.table = some t) (hr : t.rows.length < 2) :
    (enrich v fig gd).1 = none := by
  unfold enrich
  rw [h, check_table_data_short fig.figure_nr t hr]

lemma enrich_not_blocked (v : Variant) (fig : Figure) (gd : GDict) (t : Table)
    (ht : fig.table = some t) (hr : ¬ t.rows.length < 2) :
    enrich v fig gd =
      (some ⟨fig, v.name, gd,
        ⟨0, (dataPhase v fig.figure_nr t).headerNames,
          (dataPhase v fig.figure_nr t).fields,
          (dataPhase v fig.figure_nr t).values⟩⟩,
       check_regex v (gd.map (fun p => p.1)) ++
         (check_table_data fig.figure_nr fig.table).2 ++
         (dataPhase v fig.figure_nr t).errs ++
         check_grid fig.figure_nr
           ⟨0, (dataPhase v fig.figure_nr t).headerNames,
             (dataPhase v fig.figure_nr t).fields,
             (dataPhase v fig.figure_nr t).values⟩) := by
  have hct : ∃ nb, check_table_data fig.figure_nr fig.table = (none, nb) := by
    rw [ht]
    simp only [check_table_data]
    rw [if_neg hr]
    split_ifs <;> exact ⟨_, rfl⟩
  obtain ⟨nb, hct⟩ := hct
  unfold enrich
  rw [hct, ht]

/-- The C1 loop invariant: committed fields have distinct names and every
accumulated value row is no longer than them. -/
def Inv1 (st : DState) : Prop :=
  st.fields.Nodup ∧ ∀ val ∈ st.values, val.length ≤ st.fields.length

lemma dataStep_Inv1 (rH rV : List Regex) (fnr tnr : Int) (st : DState)
    (p : Nat × Row) (h : Inv1 st) : Inv1 (dataStep rH rV fnr tnr st p) := by
  obtain ⟨i, row⟩ := p
  rw [dataStep_eq]
  by_cases h1 : st.headerNames.isEmpty = true
  · rw [if_pos h1]
    by_cases h2 : ((rowHeaderMatches rH row).all headerOk) = true
    · rw [if_pos h2]; exact h
    · rw [if_neg h2]; exact h
  · rw [if_neg h1]
    by_cases h3 : (!(rowData rV row.cells).2.isEmpty) = true
    · rw [if_pos h3]; exact h
    · rw [if_neg h3]
      by_cases h4 : (!((((rowData rV row.cells).1.map (fun p => p.1)).filter
            (fun k => !(if st.fields.isEmpty
                then (rowData rV row.cells).1.map (fun p => p.1)
                else st.fields).contains k)).isEmpty)) = true
      · rw [if_pos h4]
        refine ⟨?_, ?_⟩
        · show (if st.fields.isEmpty
              then (rowData rV row.cells).1.map (fun p => p.1)
              else st.fields).Nodup
          split_ifs with hf
          · exact rowData_keys_nodup rV row.cells
          · exact h.1
        · intro val hval
          show val.length ≤ (if st.fields.isEmpty
              then (rowData rV row.cells).1.map (fun p => p.1)
              else st.fields).length
          split_ifs with hf
          · have hz : st.fields = [] := List.isEmpty_iff.mp hf
            have hv := h.2 val hval
            rw [hz] at hv
            simp at hv
            simp [hv]
          · exact h.2 val hval
      · rw [if_neg h4]
        refine ⟨?_, ?_⟩
        · show (if st.fields.isEmpty
              then (rowData rV row.cells).1.map (fun p => p.1)
              else st.fields).Nodup
          split_ifs with hf
          · exact rowData_keys_nodup rV row.cells
          · exact h.1
        · intro val hval
          show val.length ≤ (if st.fields.isEmpty
              then (rowData rV row.cells).1.map (fun p => p.1)
              else st.fields).length
          rcases List.mem_append.mp hval with hold | hnew
          · split_ifs with hf
            · have hz : st.fields = [] := List.isEmpty_iff.mp hf
              have hv := h.2 val hold
              rw [hz] at hv
              simp at hv
              simp [hv]
            · exact h.2 val hold
          · rw [List.mem_singleton.mp hnew]
            split_ifs with hf
            · simp
            · have hde : ((((rowData rV row.cells).1.map (fun q => q.1)).filter
                  (fun k => !(if st.fields.isEmpty
                      then (rowData rV row.cells).1.map (fun q => q.1)
                      else st.fields).contains k)).isEmpty) = true := by
                cases hco : ((((rowData rV row.cells).1.map (fun q => q.1)).filter
                    (fun k => !(if st.fields.isEmpty
                        then (rowData rV row.cells).1.map (fun q => q.1)
                        else st.fields).contains k)).isEmpty) with
                | true => rfl
                | false => exact absurd (by rw [hco]; rfl) h4
              have hsub : ∀ k ∈ (rowData rV row.cells).1.map (fun q => q.1),
                  k ∈ st.fields := by
                intro k hk
                have := sub_of_diff_isEmpty _ _ hde k hk
                rwa [if_neg hf] at this
              have hnd := rowData_keys_nodup rV row.cells
              have hlen := ((hnd.subperm hsub).length_le)
              simpa using hlen

end Senfd

namespace Senfd

lemma foldl_dataStep_pres (P : DState → Prop) (rH rV : List Regex)
    (fnr tnr : Int)
    (hstep : ∀ st p, P st → P (dataStep rH rV fnr tnr st p)) :
    ∀ (rows : List (Nat × Row)) (st : DState), P st →
      P (rows.foldl (dataStep rH rV fnr tnr) st) := by
  intro rows
  induction rows with
  | nil => intro st h; exact h
  | cons p rows ih => intro st h; exact ih _ (hstep st p h)

lemma dataPhase_Inv1 (v : Variant) (fnr : Int) (t : Table) :
    Inv1 (dataPhase v fnr t) := by
  unfold dataPhase
  exact foldl_dataStep_pres Inv1 _ _ _ _ (fun st p h => dataStep_Inv1 _ _ _ _ st p h)
    _ _ ⟨List.nodup_nil, by intro val h; simp at h⟩

/-- The C6 loop invariant: the committed fields are non-empty exactly when
some accumulated value row is non-empty. -/
def Inv6 (st : DState) : Prop :=
  st.fields ≠ [] ↔ ∃ val ∈ st.values, val ≠ []

lemma dataStep_Inv6 (rH rV : List Regex) (fnr tnr : Int) (st : DState)
    (p : Nat × Row) (h : Inv6 st) : Inv6 (dataStep rH rV fnr tnr st p) := by
  obtain ⟨i, row⟩ := p
  rw [dataStep_eq]
  by_cases h1 : st.headerNames.isEmpty = true
  · rw [if_pos h1]
    by_cases h2 : ((rowHeaderMatches rH row).all headerOk) = true
    · rw [if_pos h2]; exact h
    · rw [if_neg h2]; exact h
  · rw [if_neg h1]
    by_cases h3 : (!(rowData rV row.cells).2.isEmpty) = true
    · rw [if_pos h3]; exact h
    · rw [if_neg h3]
      by_cases h4 : (!((((rowData rV row.cells).1.map (fun p => p.1)).filter
            (fun k => !(if st.fields.isEmpty
                then (rowData rV row.cells).1.map (fun p => p.1)
                else st.fields).contains k)).isEmpty)) = true
      · rw [if_pos h4]
        by_cases hf : st.fields.isEmpty = true
        · exfalso
          have hde := diff_isEmpty_of_sub rV st row.cells
            (fun k hk => by rw [if_pos hf]; exact hk)
          rw [hde] at h4
          exact absurd h4 (by decide)
        · show (if st.fields.isEmpty then _ else st.fields) ≠ [] ↔ _
          rw [if_neg hf]
          exact h
      · rw [if_neg h4]
        by_cases hf : st.fields.isEmpty = true
        · have hz : st.fields = [] := List.isEmpty_iff.mp hf
          show (if st.fields.isEmpty then
              (rowData rV row.cells).1.map (fun p => p.1) else st.fields) ≠ [] ↔ _
          rw [if_pos hf]
          cases hX : (rowData rV row.cells).1 with
          | nil =>
            simp only [hX, List.map_nil]
            constructor
            · intro hfalse; exact absurd rfl hfalse
            · rintro ⟨val, hval, hne⟩
              rcases List.mem_append.mp hval with hold | hnew
              · exact absurd (h.mpr ⟨val, hold, hne⟩) (by simp [hz])
              · exact absurd (List.mem_singleton.mp hnew) (by simpa using hne)
          | cons q qs =>
            simp only [hX, List.map_cons]
            constructor
            · intro _
              refine ⟨(q.2 :: qs.map (fun p => p.2)), ?_, by simp⟩
              apply List.mem_append_right
              simp [hX]
            · intro _
              simp
        · show (if st.fields.isEmpty then
              (rowData rV row.cells).1.map (fun p => p.1) else st.fields) ≠ [] ↔ _
          rw [if_neg hf]
          have hne : st.fields ≠ [] := by
            intro hz
            rw [hz] at hf
            exact hf rfl
          constructor
          · intro _
            rcases h.mp hne with ⟨val, hval, hvne⟩
            exact ⟨val, List.mem_append_left _ hval, hvne⟩
          · intro _
            exact hne

lemma dataPhase_Inv6 (v : Variant) (fnr : Int) (t : Table) :
    Inv6 (dataPhase v fnr t) := by
  unfold dataPhase
  refine foldl_dataStep_pres Inv6 _ _ _ _
    (fun st p h => dataStep_Inv6 _ _ _ _ st p h) _ _ ?_
  constructor
  · intro hfalse; exact absurd rfl hfalse
  · rintro ⟨val, hval, _⟩
    simp at hval

end Senfd

namespace Senfd

lemma enrich_some_cases (v : Variant) (fig : Figure) (gd : GDict)
    (ef : EnrichedFig) (es : List Err) (he : enrich v fig gd = (some ef, es)) :
    ∃ t, fig.table = some t ∧ ¬ t.rows.length < 2 ∧
      ef = ⟨fig, v.name, gd,
        ⟨0, (dataPhase v fig.figure_nr t).headerNames,
          (dataPhase v fig.figure_nr t).fields,
          (dataPhase v fig.figure_nr t).values⟩⟩ := by
  cases hft : fig.table with
  | none =>
    have h1 := congrArg Prod.fst he
    rw [enrich_fst_table_none v fig gd hft] at h1
    exact absurd h1.symm (by simp)
  | some t =>
    by_cases hr : t.rows.length < 2
    · have h1 := congrArg Prod.fst he
      rw [enrich_fst_short v fig gd t hft hr] at h1
      exact absurd h1.symm (by simp)
    · refine ⟨t, rfl, hr, ?_⟩
      rw [enrich_not_blocked v fig gd t hft hr] at he
      have h1 := congrArg Prod.fst he
      simp only at h1
      exact (Option.some.inj h1).symm

/-! ## Claim C1 -/

/-- C1 (amended): every row-tuple in a produced grid's `values` has length
at most `len(fields)`, with distinct field names; a later accepted row whose
captures are a strict subset of `fields` is appended shorter, so equality for
every row does not hold. -/
theorem C1_value_rows_at_most_fields :
    ∀ (v : Variant) (fig : Figure) (gd : GDict) (ef : EnrichedFig) (es : List Err),
      enrich v fig gd = (some ef, es) →
      ef.grid.fields.Nodup ∧
      ∀ val ∈ ef.grid.values, val.length ≤ ef.grid.fields.length := by
  intro v fig gd ef es he
  obtain ⟨t, hft, hr, rfl⟩ := enrich_some_cases v fig gd ef es he
  exact ⟨(dataPhase_Inv1 v fig.figure_nr t).1,
    fun val hval => (dataPhase_Inv1 v fig.figure_nr t).2 val hval⟩

/-- C1 witness: the one-cell data row of `figShortRow` is accepted with one
entry, below the two-entry bound never reached, and within the bound of the
single committed field. -/
theorem C1_value_rows_at_most_fields_witness :
    (enrich acronymsFigure figShortRow [] =
      (some ⟨figShortRow, "AcronymsFigure", [],
        ⟨0, ["Term", "Definition"], ["term"], [[some "NVM"]]⟩⟩,
       [Err.irregularTableError 11 [1, 2]])) ∧
    ((⟨figShortRow, "AcronymsFigure", [],
        ⟨0, ["Term", "Definition"], ["term"], [[some "NVM"]]⟩⟩ :
          EnrichedFig).grid.fields.Nodup ∧
      ∀ val ∈ (⟨figShortRow, "AcronymsFigure", [],
          ⟨0, ["Term", "Definition"], ["term"], [[some "NVM"]]⟩⟩ :
            EnrichedFig).grid.values,
        val.length ≤ (⟨figShortRow, "AcronymsFigure", [],
          ⟨0, ["Term", "Definition"], ["term"], [[some "NVM"]]⟩⟩ :
            EnrichedFig).grid.fields.length) :=
  ⟨by decide,
   C1_value_rows_at_most_fields acronymsFigure figShortRow []
     ⟨figShortRow, "AcronymsFigure", [],
       ⟨0, ["Term", "Definition"], ["term"], [[some "NVM"]]⟩⟩
     [Err.irregularTableError 11 [1, 2]] (by decide)⟩

/-- C1 counterexample: on `figIrregular` the grid has five fields but its
second row-tuple has only four entries, so not every row-tuple has length
exactly `len(fields)`. -/
theorem C1_value_rows_at_most_fields_counterexample :
    ((enrich commandIoOpcodeFigure figIrregular []).1.map
      (fun ef => (ef.grid.fields.length, ef.grid.values.map List.length)) =
        some (5, [5, 4])) ∧
    ¬ (((enrich commandIoOpcodeFigure figIrregular []).1.all
        (fun ef => ef.grid.values.all
          (fun val => val.length == ef.grid.fields.length))) = true) :=
  ⟨by decide, by decide⟩

/-! ## Claim C5 -/

/-- C5: a table whose rows do not all have the same cell count yields a
non-blocking `IrregularTableError` — the diagnostic is emitted and the
figure is still enriched. -/
theorem C5_irregular_nonblocking :
    ∀ (v : Variant) (fig : Figure) (gd : GDict) (t : Table),
      fig.table = some t → ¬ t.rows.length < 2 →
      (uniqueLens (t.rows.map (fun r => r.cells.length))).length ≠ 1 →
      (enrich v fig gd).1.isSome ∧
      Err.irregularTableError fig.figure_nr
          (uniqueLens (t.rows.map (fun r => r.cells.length))) ∈
        (enrich v fig gd).2 := by
  intro v fig gd t ht hr hl
  rw [enrich_not_blocked v fig gd t ht hr]
  constructor
  · rfl
  · have h2 : (check_table_data fig.figure_nr fig.table).2 =
        [Err.irregularTableError fig.figure_nr
          (uniqueLens (t.rows.map (fun r => r.cells.length)))] := by
      rw [ht]
      simp only [check_table_data]
      rw [if_neg hr, if_pos hl]
    simp only [h2]
    simp [List.mem_append]

/-- C5 witness: the alternating five/four-cell table of `figIrregular`
yields the `IrregularTableError` diagnostic, enrichment continues, and the
resulting grid is non-empty. -/
theorem C5_irregular_nonblocking_witness :
    (figIrregular.table = some tblIrregular ∧
      ¬ tblIrregular.rows.length < 2 ∧
      (uniqueLens (tblIrregular.rows.map (fun r => r.cells.length))).length ≠ 1) ∧
    ((enrich commandIoOpcodeFigure figIrregular []).1.isSome ∧
      Err.irregularTableError figIrregular.figure_nr
          (uniqueLens (tblIrregular.rows.map (fun r => r.cells.length))) ∈
        (enrich commandIoOpcodeFigure figIrregular []).2) ∧
    ((enrich commandIoOpcodeFigure figIrregular []).1.map
      (fun ef => ef.grid.values.isEmpty) = some false) :=
  ⟨⟨rfl, by decide, by decide⟩,
   C5_irregular_nonblocking commandIoOpcodeFigure figIrregular [] tblIrregular
     rfl (by decide) (by decide),
   by decide⟩

/-! ## Claim C6 -/

/-- C6 (amended): a produced grid's `fields` is non-empty iff some accepted
data row contributed a non-empty capture record, i.e. iff some row-tuple in
`values` is non-empty. A row with fewer cells than the variant's column
count can be that row, so non-empty `fields` does not require any row to
have matched all of the variant's per-column patterns. -/
theorem C6_fields_nonempty_iff_nonempty_row :
    ∀ (v : Variant) (fig : Figure) (gd : GDict) (ef : EnrichedFig) (es : List Err),
      enrich v fig gd = (some ef, es) →
      (ef.grid.fields ≠ [] ↔ ∃ val ∈ ef.grid.values, val ≠ []) := by
  intro v fig gd ef es he
  obtain ⟨t, hft, hr, rfl⟩ := enrich_some_cases v fig gd ef es he
  exact dataPhase_Inv6 v fig.figure_nr t

/-- C6 witness: on `figShortRow` the committed field list `["term"]` is
non-empty and indeed some row-tuple in `values` is non-empty. -/
theorem C6_fields_nonempty_iff_nonempty_row_witness :
    (enrich acronymsFigure figShortRow [] =
      (some ⟨figShortRow, "AcronymsFigure", [],
        ⟨0, ["Term", "Definition"], ["term"], [[some "NVM"]]⟩⟩,
       [Err.irregularTableError 11 [1, 2]])) ∧
    ((⟨figShortRow, "AcronymsFigure", [],
        ⟨0, ["Term", "Definition"], ["term"], [[some "NVM"]]⟩⟩ :
          EnrichedFig).grid.fields ≠ [] ↔
      ∃ val ∈ (⟨figShortRow, "AcronymsFigure", [],
          ⟨0, ["Term", "Definition"], ["term"], [[some "NVM"]]⟩⟩ :
            EnrichedFig).grid.values, val ≠ []) :=
  ⟨by decide,
   C6_fields_nonempty_iff_nonempty_row acronymsFigure figShortRow []
     ⟨figShortRow, "AcronymsFigure", [],
       ⟨0, ["Term", "Definition"], ["term"], [[some "NVM"]]⟩⟩
     [Err.irregularTableError 11 [1, 2]] (by decide)⟩

/-- C6 counterexample: on `figShortRowOpc` the grid's `fields` is the
non-empty `["bitstr"]`, yet no row of the table — in particular no data
row — matches all five of the variant's per-column value patterns (every
row either has fewer than five cells or has a failing cell), so "fields
non-empty iff some data row matched all value patterns completely" fails. -/
theorem C6_fields_nonempty_iff_nonempty_row_counterexample :
    ((enrich commandIoOpcodeFigure figShortRowOpc []).1.map
      (fun ef => ef.grid.fields) = some ["bitstr"]) ∧
    (figShortRowOpc.table = some tblShortRowOpc) ∧
    (∀ row ∈ tblShortRowOpc.rows,
      ¬ ((commandIoOpcodeFigure.regexGrid.map (fun p => p.2)).length ≤
            row.cells.length ∧
         (rowData (commandIoOpcodeFigure.regexGrid.map (fun p => p.2))
            row.cells).2 = [])) :=
  ⟨by decide, rfl, by decide⟩

end Senfd

namespace Senfd

/-! ## Claim C4 -/

/-- C4 (amended): a collision between the caption-capture names and the
fields of the enriched figure model is detected during each figure's
enrichment, not at catalog construction: it is emitted as an
`ImplementationError` in the per-document error list, and it is not fatal —
with a well-formed table the figure is still enriched. -/
theorem C4_collision_is_per_figure_diagnostic :
    ∀ (v : Variant) (fig : Figure) (gd : GDict),
      (baseModelKeys ++ v.fieldNames).filter
          (fun k => (gd.map (fun p => p.1)).contains k) ≠ [] →
      Err.implementationError v.name
          ((baseModelKeys ++ v.fieldNames).filter
            (fun k => (gd.map (fun p => p.1)).contains k)) ∈ (enrich v fig gd).2 ∧
      (∀ t, fig.table = some t → ¬ t.rows.length < 2 →
        (enrich v fig gd).1.isSome) := by
  intro v fig gd hsh
  have hcr : check_regex v (gd.map (fun p => p.1)) =
      [Err.implementationError v.name
        ((baseModelKeys ++ v.fieldNames).filter
          (fun k => (gd.map (fun p => p.1)).contains k))] := by
    simp only [check_regex]
    rw [if_neg (by rw [List.isEmpty_iff]; exact hsh)]
  constructor
  · cases hft : fig.table with
    | none =>
      have he : enrich v fig gd =
          (none, check_regex v (gd.map (fun p => p.1)) ++ [] ++
            [Err.figureTableMissingError fig.figure_nr]) := by
        unfold enrich
        rw [hft]
        rfl
      rw [he, hcr]
      simp [List.mem_append]
    | some t =>
      by_cases hr : t.rows.length < 2
      · have he : enrich v fig gd =
            (none, check_regex v (gd.map (fun p => p.1)) ++ [] ++
              [Err.figureTableMissingRowsError fig.figure_nr]) := by
          unfold enrich
          rw [hft, check_table_data_short fig.figure_nr t hr]
        rw [he, hcr]
        simp [List.mem_append]
      · rw [enrich_not_blocked v fig gd t hft hr]
        rw [hcr]
        simp [List.mem_append]
  · intro t hft hr
    rw [enrich_not_blocked v fig gd t hft hr]
    rfl

/-- C4 witness: `CommandIoOpcodeFigure` declares a `command_set_name` field
and its caption pattern captures `command_set_name`, so enriching
`figIrregular` with that capture emits the `ImplementationError` diagnostic
while still producing the enriched figure. -/
theorem C4_collision_is_per_figure_diagnostic_witness :
    ((baseModelKeys ++ commandIoOpcodeFigure.fieldNames).filter
        (fun k => (([("command_set_name", some "NVM")] : GDict).map
          (fun p => p.1)).contains k) ≠ []) ∧
    (Err.implementationError commandIoOpcodeFigure.name
        ((baseModelKeys ++ commandIoOpcodeFigure.fieldNames).filter
          (fun k => (([("command_set_name", some "NVM")] : GDict).map
            (fun p => p.1)).contains k)) ∈
      (enrich commandIoOpcodeFigure figIrregular
        [("command_set_name", some "NVM")]).2 ∧
      (∀ t, figIrregular.table = some t → ¬ t.rows.length < 2 →
        (enrich commandIoOpcodeFigure figIrregular
          [("command_set_name", some "NVM")]).1.isSome)) :=
  ⟨by decide,
   C4_collision_is_per_figure_diagnostic commandIoOpcodeFigure figIrregular
     [("command_set_name", some "NVM")] (by decide)⟩

/-- C4 counterexample: converting a document containing `figIrregular` emits
the collision as a per-document `ImplementationError` diagnostic — the claim
says this is never a per-document error — and the figure is nevertheless
enriched into its bucket, so the collision is not fatal either. -/
theorem C4_collision_is_per_figure_diagnostic_counterexample :
    (Err.implementationError "CommandIoOpcodeFigure" ["command_set_name"] ∈
      (convert get_figure_enriching_classes [figIrregular]).2) ∧
    ((convert get_figure_enriching_classes [figIrregular]).1.buckets.map
      (fun p => p.1) = ["command_io_opcode"]) :=
  ⟨by decide, by decide⟩

/-! ## Claim C3 -/

/-- How often a figure number occurs across all destinations of the output
document: the variant buckets, `nontabular` and `uncategorized`. -/
def bucketCount (doc : EDoc) (nr : Int) : Nat :=
  (doc.buckets.filter (fun p => p.2.base.figure_nr = nr)).length +
  (doc.nontabular.filter (fun f => f.figure_nr = nr)).length +
  (doc.uncategorized.filter (fun f => f.figure_nr = nr)).length

/-- A figure is dropped by `convert` exactly when it is tabular, classified,
and `enrich` hit a blocking error (`if not enriched: break`). -/
def isDroppedFig (catalog : List Variant) (fig : Figure) : Bool :=
  match fig.table with
  | none => false
  | some _ =>
    match classifyFigure catalog (pyTranslate fig.description.data) with
    | none => false
    | some (v, caps) =>
      ((enrich v fig (groupdict v.regexFigureDescription caps)).1).isNone

lemma enrich_base (v : Variant) (fig : Figure) (gd : GDict) (ef : EnrichedFig)
    (es : List Err) (he : enrich v fig gd = (some ef, es)) : ef.base = fig := by
  obtain ⟨t, _, _, rfl⟩ := enrich_some_cases v fig gd ef es he
  rfl

lemma convertStep_count (catalog : List Variant) (acc : EDoc × List Err)
    (f : Figure) (nr : Int) :
    bucketCount (convertStep catalog acc f).1 nr =
      bucketCount acc.1 nr +
        (if f.figure_nr = nr then (if isDroppedFig catalog f then 0 else 1)
         else 0) := by
  cases hft : f.table with
  | none =>
    have hd : isDroppedFig catalog f = false := by
      simp [isDroppedFig, hft]
    rw [hd]
    simp only [convertStep, hft, Bool.false_eq_true, if_false]
    simp only [bucketCount, List.filter_append, List.length_append]
    by_cases h : f.figure_nr = nr
    · rw [if_pos h]
      simp [h]
      omega
    · rw [if_neg h]
      simp [h]
  | some t =>
    cases hcl : classifyFigure catalog (pyTranslate f.description.data) with
    | none =>
      have hd : isDroppedFig catalog f = false := by
        simp [isDroppedFig, hft, hcl]
      rw [hd]
      simp only [convertStep, hft, hcl, Bool.false_eq_true, if_false]
      simp only [bucketCount, List.filter_append, List.length_append]
      by_cases h : f.figure_nr = nr
      · rw [if_pos h]
        simp [h]
        omega
      · rw [if_neg h]
        simp [h]
    | some p =>
      obtain ⟨v, caps⟩ := p
      cases hen : (enrich v f (groupdict v.regexFigureDescription caps)).1 with
      | none =>
        have hd : isDroppedFig catalog f = true := by
          simp [isDroppedFig, hft, hcl, hen]
        rw [hd]
        simp only [convertStep, hft, hcl, hen, if_true]
        simp only [bucketCount]
        by_cases h : f.figure_nr = nr
        · rw [if_pos h]
          omega
        · rw [if_neg h]
          omega
      | some ef =>
        have hbase : ef.base = f := by
          refine enrich_base v f (groupdict v.regexFigureDescription caps) ef
            ((enrich v f (groupdict v.regexFigureDescription caps)).2) ?_
          rw [← hen]
        have hd : isDroppedFig catalog f = false := by
          simp [isDroppedFig, hft, hcl, hen]
        rw [hd]
        simp only [convertStep, hft, hcl, hen, Bool.false_eq_true, if_false]
        simp only [bucketCount, List.filter_append, List.length_append, hbase]
        by_cases h : f.figure_nr = nr
        · rw [if_pos h]
          simp [hbase, h]
          omega
        · rw [if_neg h]
          simp [hbase, h]

lemma convert_count (catalog : List Variant) :
    ∀ (figs : List Figure) (acc : EDoc × List Err) (nr : Int),
      bucketCount ((figs.foldl (convertStep catalog) acc).1) nr =
        bucketCount acc.1 nr +
          (figs.map (fun f =>
            if f.figure_nr = nr then (if isDroppedFig catalog f then 0 else 1)
            else 0)).sum := by
  intro figs
  induction figs with
  | nil => intro acc nr; simp
  | cons f figs ih =>
    intro acc nr
    rw [List.foldl_cons, ih, convertStep_count]
    simp [List.sum_cons]
    omega

/-- C3 (amended): a classified figure whose extraction hits a blocking error
is not placed anywhere in the output document — it is dropped, carrying no
empty-Grid placeholder — and every other figure lands in exactly one of: one
variant bucket, `nontabular`, `uncategorized`. So with unique figure
numbers, a figure's number appears exactly once in the output unless the
figure was classified-and-blocked, in which case it appears nowhere. -/
theorem C3_blocked_figures_dropped :
    ∀ (catalog : List Variant) (figs : List Figure) (fig : Figure),
      fig ∈ figs → (figs.map (fun f => f.figure_nr)).Nodup →
      bucketCount (convert catalog figs).1 fig.figure_nr =
        if isDroppedFig catalog fig then 0 else 1 := by
  intro catalog figs fig hmem hnd
  unfold convert
  rw [convert_count catalog figs _ fig.figure_nr]
  have hz : bucketCount (⟨[], [], []⟩ : EDoc) fig.figure_nr = 0 := rfl
  rw [hz]
  have hsum : ∀ (l : List Figure), fig ∈ l →
      (l.map (fun f => f.figure_nr)).Nodup →
      (l.map (fun f =>
        if f.figure_nr = fig.figure_nr then
          (if isDroppedFig catalog f then 0 else 1) else 0)).sum =
        (if isDroppedFig catalog fig then 0 else 1) := by
    intro l
    induction l with
    | nil => intro h; simp at h
    | cons g l ih =>
      intro hm hn
      rw [List.map_cons, List.nodup_cons] at hn
      rcases List.mem_cons.mp hm with heq | htail
      · subst heq
        rw [List.map_cons, List.sum_cons]
        have hrest : (l.map (fun f =>
            if f.figure_nr = fig.figure_nr then
              (if isDroppedFig catalog f then 0 else 1) else 0)).sum = 0 := by
          apply List.sum_eq_zero
          intro x hx
          rcases List.mem_map.mp hx with ⟨f, hf, hfx⟩
          have hne : f.figure_nr ≠ fig.figure_nr := by
            intro he
            exact hn.1 (he ▸ List.mem_map_of_mem (fun f => f.figure_nr) hf)
          rw [← hfx, if_neg hne]
        rw [hrest, if_pos rfl]
        omega
      · rw [List.map_cons, List.sum_cons]
        have hne : g.figure_nr ≠ fig.figure_nr := by
          intro he
          exact hn.1 (by
            rw [he]
            exact List.mem_map_of_mem (fun f => f.figure_nr) htail)
        rw [if_neg hne, ih htail hn.2]
        omega
  rw [hsum figs hmem hnd]
  omega

/-- C3 witness: in a one-figure document the (non-blocked) figure's number
appears exactly once across the output buckets. -/
theorem C3_blocked_figures_dropped_witness :
    (figIrregular ∈ [figIrregular] ∧
      (([figIrregular].map (fun f => f.figure_nr)).Nodup)) ∧
    bucketCount (convert get_figure_enriching_classes [figIrregular]).1
        figIrregular.figure_nr =
      if isDroppedFig get_figure_enriching_classes figIrregular then 0 else 1 :=
  ⟨⟨List.mem_singleton.mpr rfl, by decide⟩,
   C3_blocked_figures_dropped get_figure_enriching_classes [figIrregular]
     figIrregular (List.mem_singleton.mpr rfl) (by decide)⟩

/-- C3 counterexample: `figBlocked` is tabular and classified (to
`CnsValueFigure`) but its single-row table is a blocking error; the
converted document retains it in no bucket at all — not in its variant's
bucket with an empty Grid as claimed — so its figure number appears in none
of the destinations. -/
theorem C3_blocked_figures_dropped_counterexample :
    ((convert get_figure_enriching_classes [figBlocked]).1 =
      (⟨[], [], []⟩ : EDoc)) ∧
    (Err.figureTableMissingRowsError 9 ∈
      (convert get_figure_enriching_classes [figBlocked]).2) ∧
    ((classifyFigure get_figure_enriching_classes
        (pyTranslate figBlocked.description.data)).map (fun p => p.1.name) =
      some "CnsValueFigure") ∧
    figBlocked.table.isSome = true :=
  ⟨by decide, by decide, rfl, rfl⟩

end Senfd
